import Mathlib

/-!
Shallow embedding of the acquisition core of the fx2lafw / DSLogic driver
(src/hardware/fx2lafw/{protocol.c, api.c, dslogic_trigger.c, protocol.h}).

Machine integers are modelled as `Nat` (with explicit `% 2^w` where overflow
matters) or `Int` where the C type is a signed `int`.  C arrays indexed by
small constants are modelled as total functions `Nat → _`; the C code only
ever reads/writes them inside their bounds on the paths verified here.
-/

namespace Fx2lafw

/-! ## Constants from protocol.h -/

def NUM_TRIGGER_STAGES : Nat := 4
def NUM_SIMUL_TRANSFERS : Nat := 32
def MAX_EMPTY_TRANSFERS : Nat := NUM_SIMUL_TRANSFERS * 2
def MAX_16BIT_SAMPLE_RATE : Nat := 12000000
/-- 6 delay states of up to 256 clock ticks. -/
def MAX_SAMPLE_DELAY : Int := 6 * 256
/-- Software trigger: positive values indicate the trigger stage, -1 = fired. -/
def TRIGGER_FIRED : Int := -1
def DSLOGIC_TRIGGER_STAGES : Nat := 16
def DSLOGIC_TRIGGER_PROBES : Nat := 16

/-- CMD_START flag bit for 16-bit samples (1 << CMD_START_FLAGS_WIDE_POS). -/
def CMD_START_FLAGS_SAMPLE_16BIT : Nat := 1 <<< 5
/-- CMD_START flag for the 30 MHz clock (0 << CMD_START_FLAGS_CLK_SRC_POS). -/
def CMD_START_FLAGS_CLK_30MHZ : Nat := 0
/-- CMD_START flag for the 48 MHz clock (1 << CMD_START_FLAGS_CLK_SRC_POS). -/
def CMD_START_FLAGS_CLK_48MHZ : Nat := 1 <<< 6

/-! ## DSLogic trigger (struct ds_trigger, dslogic_trigger.c) -/

/-- `struct ds_trigger` from protocol.h.  The per-stage arrays (C size
`DSLOGIC_TRIGGER_STAGES + 1`, rows of `DSLOGIC_TRIGGER_PROBES` chars) are
modelled as total functions; the driver only uses indices inside the C
bounds. -/
structure DsTrigger where
  trigger_en : Nat
  trigger_mode : Nat
  trigger_pos : Nat
  trigger_stages : Nat
  trigger_logic : Nat → Nat
  trigger0_inv : Nat → Nat
  trigger1_inv : Nat → Nat
  trigger0 : Nat → Nat → Char
  trigger1 : Nat → Nat → Char
  trigger0_count : Nat → Nat
  trigger1_count : Nat → Nat

/-- One iteration bundle of the `for (i = PROBES-1; i >= 0; i--)` loops of
`ds_trigger_get_*`: `trigWordLoop row pred acc n` runs the remaining `n`
iterations with current accumulator `acc`, next examining row index `n-1`. -/
def trigWordLoop (row : Nat → Char) (pred : Char → Bool) : Nat → Nat → Nat
  | acc, 0 => acc
  | acc, n + 1 => trigWordLoop row pred (2 * acc + (if pred (row n) then 1 else 0)) n

/-- `ds_trigger_get_mask0`: mask bit set iff the row char is 'X' or 'C'. -/
def ds_trigger_get_mask0 (t : DsTrigger) (stage : Nat) : Nat :=
  trigWordLoop (t.trigger0 stage) (fun c => c = 'X' || c = 'C') 0 DSLOGIC_TRIGGER_PROBES

/-- `ds_trigger_get_mask1`: mask bit set iff the row char is 'X' or 'C'. -/
def ds_trigger_get_mask1 (t : DsTrigger) (stage : Nat) : Nat :=
  trigWordLoop (t.trigger1 stage) (fun c => c = 'X' || c = 'C') 0 DSLOGIC_TRIGGER_PROBES

/-- `ds_trigger_get_value0`: value bit set iff the row char is '1' or 'R'. -/
def ds_trigger_get_value0 (t : DsTrigger) (stage : Nat) : Nat :=
  trigWordLoop (t.trigger0 stage) (fun c => c = '1' || c = 'R') 0 DSLOGIC_TRIGGER_PROBES

/-- `ds_trigger_get_value1`: value bit set iff the row char is '1' or 'R'. -/
def ds_trigger_get_value1 (t : DsTrigger) (stage : Nat) : Nat :=
  trigWordLoop (t.trigger1 stage) (fun c => c = '1' || c = 'R') 0 DSLOGIC_TRIGGER_PROBES

/-- `ds_trigger_get_edge0`: edge bit set iff the row char is 'R', 'F' or 'C'. -/
def ds_trigger_get_edge0 (t : DsTrigger) (stage : Nat) : Nat :=
  trigWordLoop (t.trigger0 stage) (fun c => c = 'R' || c = 'F' || c = 'C') 0
    DSLOGIC_TRIGGER_PROBES

/-- `ds_trigger_get_edge1`: edge bit set iff the row char is 'R', 'F' or 'C'. -/
def ds_trigger_get_edge1 (t : DsTrigger) (stage : Nat) : Nat :=
  trigWordLoop (t.trigger1 stage) (fun c => c = 'R' || c = 'F' || c = 'C') 0
    DSLOGIC_TRIGGER_PROBES

/-- Point update of a two-index array of chars. -/
def upd2 (f : Nat → Nat → Char) (i j : Nat) (c : Char) : Nat → Nat → Char :=
  fun i' j' => if i' = i ∧ j' = j then c else f i' j'

/-- The `for (j = 0; j < probes; j++)` loop of `ds_trigger_stage_set_value`
applied to one of the two rows: `setValueLoop t0 stage probes s n` performs
the writes for `j = 0 .. n-1` (write `j` stores `s (2*j)` at row index
`probes - j - 1`). -/
def setValueLoop (t0 : Nat → Nat → Char) (stage probes : Nat) (s : Nat → Char) :
    Nat → (Nat → Nat → Char)
  | 0 => t0
  | j + 1 => upd2 (setValueLoop t0 stage probes s j) stage (probes - j - 1) (s (2 * j))

/-- `ds_trigger_stage_set_value`: consumes the two input strings (modelled as
the byte memory they point at, `Nat → Char`) with stride two and stores them
in reversed probe order into rows `trigger0[stage]` / `trigger1[stage]`.
The C asserts `stage < DSLOGIC_TRIGGER_STAGES` and
`probes <= DSLOGIC_TRIGGER_PROBES`. -/
def ds_trigger_stage_set_value (t : DsTrigger) (stage probes : Nat)
    (s0 s1 : Nat → Char) : DsTrigger :=
  { t with
    trigger0 := setValueLoop t.trigger0 stage probes s0 probes
    trigger1 := setValueLoop t.trigger1 stage probes s1 probes }

/-! ## Start-acquisition command (fx2lafw_command_start_acquisition) -/

/-- `struct cmd_start_acquisition`: flags byte and 16-bit sample delay. -/
structure CmdStartAcquisition where
  flags : Nat
  sample_delay_h : Nat
  sample_delay_l : Nat
  deriving DecidableEq

/-- Value of the C local `delay` after the 48 MHz branch of
`fx2lafw_command_start_acquisition` (initially 0; the branch resets an
over-large delay back to 0). -/
def startDelay48 (samplerate : Nat) : Int :=
  if 48000000 % samplerate = 0 then
    if ((48000000 / samplerate : Nat) : Int) - 1 > MAX_SAMPLE_DELAY then 0
    else ((48000000 / samplerate : Nat) : Int) - 1
  else 0

/-- Value of `cmd.flags` after the 48 MHz branch (initially 0 from
`cmd = { 0 }`). -/
def startFlags48 (samplerate : Nat) : Nat :=
  if 48000000 % samplerate = 0 then CMD_START_FLAGS_CLK_48MHZ else 0

/-- Value of the C local `delay` after the subsequent 30 MHz branch
(`if (delay == 0 && (SR_MHZ(30) % samplerate) == 0)`). -/
def startDelay (samplerate : Nat) : Int :=
  if startDelay48 samplerate = 0 ∧ 30000000 % samplerate = 0 then
    ((30000000 / samplerate : Nat) : Int) - 1
  else startDelay48 samplerate

/-- Value of `cmd.flags` after the 30 MHz branch. -/
def startFlags (samplerate : Nat) : Nat :=
  if startDelay48 samplerate = 0 ∧ 30000000 % samplerate = 0 then
    CMD_START_FLAGS_CLK_30MHZ
  else startFlags48 samplerate

/-- `fx2lafw_command_start_acquisition` (protocol.c): computes the start
command from `devc->dslogic`, `devc->cur_samplerate` and `devc->sample_wide`.
`none` models the `SR_ERR` returns; the final control transfer is host I/O
and is assumed to succeed. -/
def fx2lafw_command_start_acquisition (dslogic : Bool) (samplerate : Nat)
    (sample_wide : Bool) : Option CmdStartAcquisition :=
  if dslogic then
    some { flags := CMD_START_FLAGS_CLK_30MHZ |||
             (if sample_wide then CMD_START_FLAGS_SAMPLE_16BIT else 0),
           sample_delay_h := 0, sample_delay_l := 0 }
  else if sample_wide ∧ samplerate > MAX_16BIT_SAMPLE_RATE then
    none
  else if startDelay samplerate ≤ 0 ∨ startDelay samplerate > MAX_SAMPLE_DELAY then
    none
  else
    some { flags := startFlags samplerate |||
             (if sample_wide then CMD_START_FLAGS_SAMPLE_16BIT else 0),
           sample_delay_h := (startDelay samplerate).toNat >>> 8 &&& 255,
           sample_delay_l := (startDelay samplerate).toNat &&& 255 }

/-! ## Device context (struct dev_context) and the acquisition scheduler -/

/-- `struct dev_context` (protocol.h), restricted to the fields the
acquisition scheduler reads or writes.  Pointers to libusb transfers are
modelled by transfer ids (`Nat`); the slot array `transfers` is a list of
optional ids (`none` = cleared slot).  `usb_source_active` models whether the
USB event-pump source is registered (`usb_source_remove` clears it), and
`cancelled` collects the ids passed to `libusb_cancel_transfer`. -/
structure DevContext where
  cur_samplerate : Nat
  limit_samples : Nat
  sample_wide : Bool
  trigger_mask : Nat → Nat
  trigger_value : Nat → Nat
  trigger_stage : Int
  trigger_buffer : Nat → Nat
  num_samples : Int
  submitted_transfers : Int
  empty_transfer_count : Nat
  num_transfers : Nat
  transfers : List (Option Nat)
  usb_source_active : Bool
  cancelled : List Nat
  dslogic : Bool
  dslogic_mode : Nat
  dslogic_test : Nat
  dslogic_ext_clock : Bool
  dslogic_test_init : Nat
  dslogic_test_sample_value : Nat
  dslogic_status : Int

/-- `to_bytes_per_ms` (protocol.c). -/
def to_bytes_per_ms (devc : DevContext) : Nat :=
  devc.cur_samplerate / 1000 * (if devc.dslogic ∧ devc.sample_wide then 2 else 1)

/-- `fx2lafw_get_buffer_size`: 10 ms of data rounded up to a multiple of 512
(`(s + 511) & ~511` on a 64-bit `size_t`). -/
def fx2lafw_get_buffer_size (devc : DevContext) : Nat :=
  (10 * to_bytes_per_ms devc + 511) &&& 0xFFFFFFFFFFFFFE00

/-- `fx2lafw_get_number_of_transfers`: 500 ms (fx2lafw) or 100 ms (DSLogic)
of data divided by the buffer size, capped at `NUM_SIMUL_TRANSFERS`. -/
def fx2lafw_get_number_of_transfers (devc : DevContext) : Nat :=
  let n := (if devc.dslogic then 100 else 500) * to_bytes_per_ms devc /
    fx2lafw_get_buffer_size devc
  if n > NUM_SIMUL_TRANSFERS then NUM_SIMUL_TRANSFERS else n

/-- `fx2lafw_get_timeout`: time to fill every buffer plus 25 % headroom,
in integer milliseconds (1000 ms for DSLogic). -/
def fx2lafw_get_timeout (devc : DevContext) : Nat :=
  if devc.dslogic then 1000
  else
    let total_size := fx2lafw_get_buffer_size devc * fx2lafw_get_number_of_transfers devc
    let timeout := total_size / to_bytes_per_ms devc
    timeout + timeout / 4

/-- A base device context used to build concrete scenarios: a non-DSLogic
device at 1 MHz, 8-bit samples, no triggers configured. -/
def devc0 : DevContext where
  cur_samplerate := 1000000
  limit_samples := 0
  sample_wide := false
  trigger_mask := fun _ => 0
  trigger_value := fun _ => 0
  trigger_stage := TRIGGER_FIRED
  trigger_buffer := fun _ => 0
  num_samples := 0
  submitted_transfers := 0
  empty_transfer_count := 0
  num_transfers := 0
  transfers := []
  usb_source_active := true
  cancelled := []
  dslogic := false
  dslogic_mode := 0
  dslogic_test := 0
  dslogic_ext_clock := false
  dslogic_test_init := 1
  dslogic_test_sample_value := 0
  dslogic_status := 0

/-- Session packets (`struct sr_datafeed_packet`) with their payload bytes.
A logic payload carries `logic.unitsize` and `logic.length` bytes of data; an
analog payload carries `analog.num_samples` and its raw bytes; the FX2
trigger packet has no payload while the DSLogic one carries the trigger-pos
struct bytes. -/
inductive Packet
  | df_header
  | df_trigger (payload : Option (List Nat))
  | df_logic (unitsize : Nat) (bytes : List Nat)
  | df_analog (numSamples : Nat) (bytes : List Nat)
  | df_end
  deriving DecidableEq

/-- libusb transfer status values seen by the completion callbacks. -/
inductive TransferStatus
  | completed
  | error
  | timedOut
  | cancelled
  | stall
  | noDevice
  | overflow
  deriving DecidableEq

/-- A completed bulk transfer as seen by its callback: the transfer id
(modelling the `struct libusb_transfer *` pointer identity), its status, and
the `actual_length` received bytes of its buffer. -/
structure Transfer where
  id : Nat
  status : TransferStatus
  buffer : List Nat
  deriving DecidableEq

/-- `transfer->actual_length`. -/
def Transfer.actual_length (t : Transfer) : Nat := t.buffer.length

/-- `fx2lafw_abort_acquisition`: set `num_samples = -1` and cancel every
non-null transfer, iterating the slot array in reverse order. -/
def fx2lafw_abort_acquisition (devc : DevContext) : DevContext :=
  { devc with
    num_samples := -1
    cancelled := devc.cancelled ++ devc.transfers.reverse.filterMap id }

/-- `finish_acquisition`: send the END packet, remove the USB fds from
polling, reset `num_transfers` and release the transfer array. -/
def finish_acquisition (devc : DevContext) : DevContext × List Packet :=
  ({ devc with usb_source_active := false, num_transfers := 0, transfers := [] },
   [Packet.df_end])

/-- The slot-clearing loop of `fx2lafw_free_transfer`: set the first slot
holding this transfer to NULL. -/
def clearSlot : List (Option Nat) → Nat → List (Option Nat)
  | [], _ => []
  | s :: rest, tid => if s = some tid then none :: rest else s :: clearSlot rest tid

/-- `fx2lafw_free_transfer`: free the transfer and its buffer, clear its slot
in the transfer array, decrement `submitted_transfers`, and finish the
acquisition exactly when the count reaches zero. -/
def fx2lafw_free_transfer (devc : DevContext) (tid : Nat) : DevContext × List Packet :=
  let devc' := { devc with
    transfers := clearSlot devc.transfers tid
    submitted_transfers := devc.submitted_transfers - 1 }
  if devc'.submitted_transfers = 0 then finish_acquisition devc' else (devc', [])

/-- Result of a completion callback: the new context, the packets sent to the
session in order, and whether `fx2lafw_free_transfer` respectively
`libusb_submit_transfer` (via `resubmit_transfer`) was applied to the
transfer. -/
structure RxResult where
  devc : DevContext
  packets : List Packet
  freed : Bool
  resubmitted : Bool

/-- `resubmit_transfer`: try to resubmit; on `libusb_submit_transfer`
failure (modelled by the `submitOk` parameter) free the transfer. -/
def resubmit_transfer (submitOk : Bool) (devc : DevContext) (tid : Nat) : RxResult :=
  if submitOk then ⟨devc, [], false, true⟩
  else
    let r := fx2lafw_free_transfer devc tid
    ⟨r.1, r.2, true, false⟩

/-- Sample `i` of a receive buffer: one byte, or a 16-bit little-endian word
when `sample_wide`. -/
def sampleAt (wide : Bool) (buf : List Nat) (i : Nat) : Nat :=
  if wide then buf.getD (2 * i) 0 + 256 * buf.getD (2 * i + 1) 0
  else buf.getD i 0

/-- Little-endian byte image of the first `n` entries of a `uint16_t` array
(the C sends `trigger_stage * unitsize` raw bytes of
`uint16_t trigger_buffer[4]`). -/
def u16leBytes (f : Nat → Nat) (n : Nat) : List Nat :=
  ((List.range n).map (fun i => [f i % 256, f i / 256 % 256])).flatten

/-- State of the software-trigger scan loop of `fx2lafw_receive_transfer`:
next sample index `i` (the loop counter after the `++`), the current
`trigger_stage` (non-negative inside the loop) and the `trigger_buffer`. -/
structure ScanState where
  i : Nat
  stage : Nat
  buf : Nat → Nat

/-- One iteration of the scan loop, examining sample `st.i`.  On a stage
match the sample is recorded and the stage advances; the trigger fires when
the stage count reaches `NUM_TRIGGER_STAGES` or the next stage mask is 0.
On a failed match with `trigger_stage > 0` the C sets `i -= trigger_stage`,
clamps `i` to -1, and resets the stage; together with the loop `i++` the next
index is `i + 1 - trigger_stage` clamped to 0, which is exactly Nat
subtraction. -/
def scanStep (mask value : Nat → Nat) (wide : Bool) (data : List Nat) (st : ScanState) :
    ScanState × Option (Nat × Nat) :=
  let cur := sampleAt wide data st.i
  if cur &&& mask st.stage = value st.stage then
    let buf' := Function.update st.buf st.stage cur
    let stage' := st.stage + 1
    if stage' = NUM_TRIGGER_STAGES ∨ mask stage' = 0 then
      (⟨st.i + 1, stage', buf'⟩, some (st.i + 1, stage'))
    else
      (⟨st.i + 1, stage', buf'⟩, none)
  else if 0 < st.stage then
    (⟨st.i + 1 - st.stage, 0, st.buf⟩, none)
  else
    (⟨st.i + 1, st.stage, st.buf⟩, none)

/-- Result of the scan loop: final stage and trigger buffer, and
`some trigger_offset` with the fired stage count when the trigger fired. -/
structure ScanResult where
  stage : Nat
  buf : Nat → Nat
  fired : Option (Nat × Nat)

/-- The `for (i = 0; i < cur_sample_count; i++)` scan loop.  `fuel` bounds
the iteration count; `5 * (n + 1)` steps always suffice because every
backtrack strictly advances the restart position `i - stage`. -/
def scanLoop (mask value : Nat → Nat) (wide : Bool) (data : List Nat) (n : Nat) :
    Nat → ScanState → ScanResult
  | 0, st => ⟨st.stage, st.buf, none⟩
  | fuel + 1, st =>
    if st.i < n then
      match scanStep mask value wide data st with
      | (st', none) => scanLoop mask value wide data n fuel st'
      | (st', some fireInfo) => ⟨st'.stage, st'.buf, some fireInfo⟩
    else ⟨st.stage, st.buf, none⟩

/-- Run the scanner over a whole buffer of `n` samples starting at the
context's current `trigger_stage`. -/
def runScan (devc : DevContext) (data : List Nat) (n : Nat) : ScanResult :=
  scanLoop devc.trigger_mask devc.trigger_value devc.sample_wide data n
    (5 * (n + 1)) ⟨0, devc.trigger_stage.toNat, devc.trigger_buffer⟩

/-- Conversion of the signed `num_samples` to `uint64_t` (C integral
conversion). -/
def u64OfInt (n : Int) : Nat := (n % (2 ^ 64 : Int)).toNat

/-- Conversion of the signed `num_samples` to `unsigned int` (32-bit). -/
def u32OfInt (n : Int) : Nat := (n % (2 ^ 32 : Int)).toNat

/-- The internal-pattern test loop of `fx2lafw_receive_transfer` (`for
(i = 0; i < logic.length / 2; ...)`): consecutive u16 samples must follow a
counter ramp; a mismatch breaks out of the loop.  Returns the updated
`(dslogic_test_init, dslogic_test_sample_value)`. -/
def dslogicTestInternal (data : List Nat) : Nat → Nat → Nat → Nat → Nat × Nat
  | 0, _, ini, val => (ini, val)
  | n + 1, i, ini, val =>
    let cur := sampleAt true data i
    let ini' := if ini = 1 then 0 else ini
    let val' := if ini = 1 then cur else val
    if cur ≠ val' then (ini', val')
    else dslogicTestInternal data n (i + 1) ini' ((val' + 1) % 65536)

/-- The external-pattern test block as compiled (the brace mismatch noted in
the source makes the `break` unconditional): the loop body runs at most once,
then the expected value advances once modulo 65001. -/
def dslogicTestExternal (data : List Nat) (n : Nat) (ini val : Nat) : Nat × Nat :=
  let cur := sampleAt true data 0
  let ini' := if 0 < n ∧ ini = 1 then 0 else ini
  let val' := if 0 < n ∧ ini = 1 then cur else val
  (ini', (val' + 1) % 65001)

/-- DSLogic test-mode constants and device modes (protocol.h enums). -/
def DSLOGIC_MODE_LOGIC : Nat := 0
def DSLOGIC_MODE_DSO : Nat := 1
def DSLOGIC_MODE_ANALOG : Nat := 2
def DSLOGIC_TEST_NONE : Nat := 0
def DSLOGIC_TEST_INTERNAL : Nat := 1
def DSLOGIC_TEST_EXTERNAL : Nat := 2
def DSLOGIC_TEST_LOOPBACK : Nat := 3
def DSLOGIC_ERROR : Int := -1
def DSLOGIC_INIT : Int := 0
def DSLOGIC_START : Int := 1
def DSLOGIC_TRIGGERED : Int := 2
def DSLOGIC_DATA : Int := 3

/-- The data-emission block of `fx2lafw_receive_transfer` once the trigger
has fired: build the LOGIC (or, for DSLogic analog/DSO modes, ANALOG)
packet covering the buffer from `trigger_offset` on; for DSLogic, clip the
logic length to the remaining sample budget and run the test-mode checks.
Returns the updated context and the packet actually sent. -/
def firedEmit (devc : DevContext) (t : Transfer) (trigger_offset sample_width : Nat) :
    DevContext × Packet :=
  let trigger_offset_bytes := trigger_offset * sample_width
  let len0 := t.actual_length - trigger_offset_bytes
  if ¬devc.dslogic ∨ devc.dslogic_mode = DSLOGIC_MODE_LOGIC then
    if devc.dslogic ∧
        ((devc.limit_samples ≠ 0 ∧ u64OfInt devc.num_samples < devc.limit_samples)
          ∨ devc.dslogic_mode ≠ DSLOGIC_MODE_LOGIC) then
      let remaining_length :=
        u64OfInt (((devc.limit_samples : Int) - (u64OfInt devc.num_samples : Int))
          * (sample_width : Int))
      let len := min len0 remaining_length
      let (ini, val) :=
        if devc.dslogic_test = DSLOGIC_TEST_INTERNAL then
          dslogicTestInternal t.buffer (len / 2) 0 devc.dslogic_test_init
            devc.dslogic_test_sample_value
        else if devc.dslogic_test = DSLOGIC_TEST_EXTERNAL then
          dslogicTestExternal t.buffer (len / 2) devc.dslogic_test_init
            devc.dslogic_test_sample_value
        else (devc.dslogic_test_init, devc.dslogic_test_sample_value)
      ({ devc with dslogic_test_init := ini, dslogic_test_sample_value := val },
       Packet.df_logic sample_width ((t.buffer.drop trigger_offset_bytes).take len))
    else
      (devc, Packet.df_logic sample_width ((t.buffer.drop trigger_offset_bytes).take len0))
  else
    let devc :=
      if (devc.limit_samples ≠ 0 ∧ u64OfInt devc.num_samples < devc.limit_samples)
          ∨ devc.dslogic_mode ≠ DSLOGIC_MODE_LOGIC then
        let remaining_length :=
          u64OfInt (((devc.limit_samples : Int) - (u64OfInt devc.num_samples : Int))
            * (sample_width : Int))
        let len := min len0 remaining_length
        let (ini, val) :=
          if devc.dslogic_test = DSLOGIC_TEST_INTERNAL then
            dslogicTestInternal t.buffer (len / 2) 0 devc.dslogic_test_init
              devc.dslogic_test_sample_value
          else if devc.dslogic_test = DSLOGIC_TEST_EXTERNAL then
            dslogicTestExternal t.buffer (len / 2) devc.dslogic_test_init
              devc.dslogic_test_sample_value
          else (devc.dslogic_test_init, devc.dslogic_test_sample_value)
        { devc with dslogic_test_init := ini, dslogic_test_sample_value := val }
      else devc
    (devc, Packet.df_analog (t.actual_length / sample_width)
      (t.buffer.drop trigger_offset_bytes))

/-- The software-trigger scan block of `fx2lafw_receive_transfer` (run only
while `trigger_stage >= 0`): returns the updated context, the TRIGGER and
buffered-prefix LOGIC packets emitted on fire, and `trigger_offset`. -/
def scanAndMark (devc : DevContext) (t : Transfer) (sample_width cur_sample_count : Nat) :
    DevContext × List Packet × Nat :=
  if 0 ≤ devc.trigger_stage then
    let r := runScan devc t.buffer cur_sample_count
    match r.fired with
    | some (off, firedStage) =>
      ({ devc with trigger_stage := TRIGGER_FIRED, trigger_buffer := r.buf },
       [Packet.df_trigger none,
        Packet.df_logic sample_width
          ((u16leBytes r.buf NUM_TRIGGER_STAGES).take (firedStage * sample_width))],
       off)
    | none =>
      ({ devc with trigger_stage := (r.stage : Int), trigger_buffer := r.buf },
       ([] : List Packet), 0)
  else (devc, ([] : List Packet), 0)

/-- The data path of `fx2lafw_receive_transfer` (reached for a completed or
timed-out transfer with data, after `empty_transfer_count` was reset): run
the software-trigger scan when not yet fired, emit the trigger/data packets,
account the samples against `limit_samples`, and resubmit (or abort) the
transfer. -/
def processData (submitOk : Bool) (devc : DevContext) (t : Transfer) : RxResult :=
  let sample_width := if devc.sample_wide then 2 else 1
  let cur_sample_count := t.actual_length / sample_width
  let scanned := scanAndMark devc t sample_width cur_sample_count
  let devc1 := scanned.1
  let scanPkts := scanned.2.1
  let trigger_offset := scanned.2.2
  if devc1.trigger_stage = TRIGGER_FIRED then
    let emitted := firedEmit devc1 t trigger_offset sample_width
    let devc2 := { emitted.1 with
      num_samples := emitted.1.num_samples + (cur_sample_count : Int) }
    if devc2.limit_samples ≠ 0 ∧ devc2.limit_samples < u32OfInt devc2.num_samples then
      let r := fx2lafw_free_transfer (fx2lafw_abort_acquisition devc2) t.id
      ⟨r.1, scanPkts ++ [emitted.2] ++ r.2, true, false⟩
    else
      let r := resubmit_transfer submitOk devc2 t.id
      ⟨r.devc, scanPkts ++ [emitted.2] ++ r.packets, r.freed, r.resubmitted⟩
  else
    let r := resubmit_transfer submitOk devc1 t.id
    ⟨r.devc, scanPkts ++ r.packets, r.freed, r.resubmitted⟩

/-- `fx2lafw_receive_transfer` (protocol.c): the bulk-IN completion
callback.  `submitOk` models the result of `libusb_submit_transfer` inside
`resubmit_transfer`. -/
def fx2lafw_receive_transfer (submitOk : Bool) (devc : DevContext) (t : Transfer) :
    RxResult :=
  if devc.num_samples = -1 then
    let r := fx2lafw_free_transfer devc t.id
    ⟨r.1, r.2, true, false⟩
  else if t.status = TransferStatus.noDevice then
    let r := fx2lafw_free_transfer (fx2lafw_abort_acquisition devc) t.id
    ⟨r.1, r.2, true, false⟩
  else
    let packet_has_error : Bool :=
      ¬(t.status = TransferStatus.completed ∨ t.status = TransferStatus.timedOut)
    if t.actual_length = 0 ∨ packet_has_error = true then
      let devc := { devc with empty_transfer_count := devc.empty_transfer_count + 1 }
      if devc.empty_transfer_count > MAX_EMPTY_TRANSFERS then
        let r := fx2lafw_free_transfer (fx2lafw_abort_acquisition devc) t.id
        ⟨r.1, r.2, true, false⟩
      else
        resubmit_transfer submitOk devc t.id
    else
      processData submitOk { devc with empty_transfer_count := 0 } t

/-- `dev_transfer_start` (api.c) on the happy path: allocate and submit
`fx2lafw_get_number_of_transfers` bulk-IN transfers of the computed size
(fresh transfer identities are supplied by `newIds`), then mark the DSLogic
state machine as streaming data. -/
def dev_transfer_start (devc : DevContext) (newIds : Nat → Nat) : DevContext :=
  let num_transfers := fx2lafw_get_number_of_transfers devc
  let devc := { devc with
    submitted_transfers := (num_transfers : Int)
    num_transfers := num_transfers
    transfers := (List.range num_transfers).map (fun i => some (newIds i)) }
  if devc.dslogic then { devc with dslogic_status := DSLOGIC_DATA } else devc

/-- `dslogic_receive_trigger_pos` (api.c): completion callback of the
one-shot trigger-position transfer on endpoint 6.  On success it emits a
TRIGGER packet carrying the trigger-pos struct, frees the transfer and
starts the data transfers; on failure it aborts.  `newIds` supplies the
identities of the data transfers submitted by `dev_transfer_start`. -/
def dslogic_receive_trigger_pos (devc : DevContext) (t : Transfer) (newIds : Nat → Nat) :
    RxResult :=
  if devc.num_samples = -1 then
    let r := fx2lafw_free_transfer devc t.id
    ⟨r.1, r.2, true, false⟩
  else if devc.dslogic_status ≠ DSLOGIC_ERROR then
    if t.status = TransferStatus.completed then
      let pkts := [Packet.df_trigger (some t.buffer)]
      let devc := { devc with dslogic_status := DSLOGIC_TRIGGERED }
      let r := fx2lafw_free_transfer devc t.id
      let devc := { r.1 with num_transfers := 0 }
      let devc := dev_transfer_start devc newIds
      ⟨devc, pkts ++ r.2, true, false⟩
    else
      let r := fx2lafw_free_transfer (fx2lafw_abort_acquisition devc) t.id
      let devc := { r.1 with dslogic_status := DSLOGIC_ERROR }
      ⟨devc, r.2, true, false⟩
  else
    ⟨devc, [], false, false⟩

/-- The teardown drain: the sequence of `fx2lafw_free_transfer` calls made by
the cancelled transfers' callbacks, in arrival order. -/
def teardown (devc : DevContext) : List Nat → DevContext × List Packet
  | [] => (devc, [])
  | tid :: rest =>
    let r := fx2lafw_free_transfer devc tid
    let r' := teardown r.1 rest
    (r'.1, r.2 ++ r'.2)

/-- Value of the low `n` bits produced by the `ds_trigger_get_*` loops:
bit `j` (for `j < n`) is `pred (row j)`. -/
def bitsVal (row : Nat → Char) (pred : Char → Bool) : Nat → Nat
  | 0 => 0
  | n + 1 => bitsVal row pred n + (if pred (row n) then 1 else 0) * 2 ^ n

/-- A concrete trigger state used to instantiate universally quantified
theorems. -/
def trigW : DsTrigger where
  trigger_en := 0
  trigger_mode := 0
  trigger_pos := 0
  trigger_stages := 1
  trigger_logic := fun _ => 1
  trigger0_inv := fun _ => 0
  trigger1_inv := fun _ => 0
  trigger0 := fun _ j => if j = 1 then 'R' else if j = 0 then '0' else 'X'
  trigger1 := fun _ j => if j = 2 then 'F' else '1'
  trigger0_count := fun _ => 0
  trigger1_count := fun _ => 0

/-- A context aborted (`num_samples = -1`) with one cancelled transfer still
outstanding. -/
def devcLate : DevContext :=
  { devc0 with
    num_samples := -1
    submitted_transfers := 1
    num_transfers := 1
    transfers := [some 7] }

/-- The cancelled transfer arriving after the abort. -/
def tLate : Transfer := { id := 7, status := TransferStatus.cancelled, buffer := [] }

/-- An errored transfer used to instantiate the error-handling theorem. -/
def tErr : Transfer := { id := 3, status := TransferStatus.error, buffer := [] }

/-- A context with the two-stage software trigger of the C3 scenario armed:
`trigger_mask = [0xFF, 0xFF, 0, 0]`, `trigger_value = [0x10, 0x20, 0, 0]`,
`trigger_stage = 0`, 8-bit samples, no sample limit. -/
def devcScan : DevContext :=
  { devc0 with
    trigger_stage := 0
    trigger_mask := fun i => if i = 0 then 255 else if i = 1 then 255 else 0
    trigger_value := fun i => if i = 0 then 16 else if i = 1 then 32 else 0
    submitted_transfers := 1
    num_transfers := 1
    transfers := [some 21] }

/-- The C3 scenario buffer [0x10, 0x05, 0x20, 0x55]. -/
def tScan1 : Transfer :=
  { id := 21, status := TransferStatus.completed, buffer := [16, 5, 32, 85] }

/-- The buffer [0x05, 0x10, 0x20, 0x55], on which the two-stage trigger does
fire (0x10 and 0x20 arrive in consecutive samples). -/
def tScan2 : Transfer :=
  { id := 21, status := TransferStatus.completed, buffer := [5, 16, 32, 85] }

/-! ## Profile matching (scan, api.c) -/

/-- Build-configured firmware directory (`FIRMWARE_DIR`); its value is
immaterial to the matching logic. -/
def FIRMWARE_DIR : String := "/share/sigrok-firmware"

/-- Capability flag bit 0: device supports 16-bit samples. -/
def DEV_CAPS_16BIT : Nat := 1 <<< 0

/-- `struct fx2lafw_profile` (protocol.h).  NULL strings are `none`. -/
structure Fx2lafwProfile where
  vid : Nat
  pid : Nat
  vendor : String
  model : String
  model_version : Option String
  firmware : String
  dev_caps : Nat
  usb_manufacturer : Option String
  usb_product : Option String
  deriving DecidableEq

/-- The static `supported_fx2[]` table (api.c), without its all-zero
terminator entry (the lookup loop stops at `vid == 0`). -/
def supported_fx2 : List Fx2lafwProfile :=
  [⟨0x08a9, 0x0014, "CWAV", "USBee AX", none,
      FIRMWARE_DIR ++ "/fx2lafw-cwav-usbeeax.fw", 0, none, none⟩,
   ⟨0x08a9, 0x0015, "CWAV", "USBee DX", none,
      FIRMWARE_DIR ++ "/fx2lafw-cwav-usbeedx.fw", DEV_CAPS_16BIT, none, none⟩,
   ⟨0x08a9, 0x0009, "CWAV", "USBee SX", none,
      FIRMWARE_DIR ++ "/fx2lafw-cwav-usbeesx.fw", 0, none, none⟩,
   ⟨0x2A0E, 0x0001, "DreamSourceLab", "DSLogic", none,
      FIRMWARE_DIR ++ "/dreamsourcelab-dslogic-fx2.fw", DEV_CAPS_16BIT, none, none⟩,
   ⟨0x0925, 0x3881, "DreamSourceLab", "DSLogic", none,
      FIRMWARE_DIR ++ "/dreamsourcelab-dslogic-fx2.fw", DEV_CAPS_16BIT,
      some "DreamSourceLab", some "DSLogic"⟩,
   ⟨0x0925, 0x3881, "Saleae", "Logic", none,
      FIRMWARE_DIR ++ "/fx2lafw-saleae-logic.fw", 0, none, none⟩,
   ⟨0x04B4, 0x8613, "Cypress", "FX2", none,
      FIRMWARE_DIR ++ "/fx2lafw-cypress-fx2.fw", DEV_CAPS_16BIT, none, none⟩,
   ⟨0x16d0, 0x0498, "Braintechnology", "USB-LPS", none,
      FIRMWARE_DIR ++ "/fx2lafw-braintechnology-usb-lps.fw", DEV_CAPS_16BIT, none, none⟩]

/-- The per-profile match condition of the scan loop (api.c):
vid/pid equal and the optional expected strings compare equal byte-exactly.
Note that, as in the C source, BOTH string comparisons are guarded on
`usb_manufacturer` being present, so an absent expected manufacturer skips
the product check as well. -/
def profileMatches (vid pid : Nat) (manufacturer product : String)
    (p : Fx2lafwProfile) : Bool :=
  (vid == p.vid) && (pid == p.pid) &&
  (p.usb_manufacturer.isNone || (some manufacturer == p.usb_manufacturer)) &&
  (p.usb_manufacturer.isNone || (some product == p.usb_product))

/-- The `for (j = 0; supported_fx2[j].vid; j++)` first-match lookup; `none`
models `prof == NULL`, on which the scan skips the device. -/
def findProfile (vid pid : Nat) (manufacturer product : String) :
    List Fx2lafwProfile → Option Fx2lafwProfile
  | [] => none
  | p :: rest =>
    if profileMatches vid pid manufacturer product p then some p
    else findProfile vid pid manufacturer product rest

/-! ## Channel configuration (fx2lafw_configure_channels, protocol.c) -/

/-- `SR_CHANNEL_LOGIC` / `SR_CHANNEL_ANALOG`. -/
inductive ChannelType
  | logic
  | analog
  deriving DecidableEq

/-- `struct sr_channel`, restricted to the fields the driver reads; the
trigger string is `none` for a NULL pointer. -/
structure SrChannel where
  index : Nat
  typ : ChannelType
  enabled : Bool
  trigger : Option (List Char)
  deriving DecidableEq

/-- The `for (tc = ch->trigger; *tc; tc++)` loop of
`fx2lafw_configure_channels`: OR the channel bit into `trigger_mask[stage]`
(and into `trigger_value[stage]` for a '1'), advance the stage, and fail
with SR_ERR (`none`) as soon as the stage count exceeds
`NUM_TRIGGER_STAGES`. -/
def chanTrigLoop (channel_bit : Nat) : List Char → Nat → (Nat → Nat) → (Nat → Nat) →
    Option ((Nat → Nat) × (Nat → Nat) × Nat)
  | [], stage, m, v => some (m, v, stage)
  | c :: rest, stage, m, v =>
    let m' := Function.update m stage (m stage ||| channel_bit)
    let v' := if c = '1' then Function.update v stage (v stage ||| channel_bit) else v
    if stage + 1 > NUM_TRIGGER_STAGES then none
    else chanTrigLoop channel_bit rest (stage + 1) m' v'

/-- The channel loop of `fx2lafw_configure_channels`, threading the mask and
value arrays, the shared `stage` local (-1 until some enabled channel has a
trigger string) and `sample_wide`. -/
def configLoop (dslogic : Bool) :
    List SrChannel → (Nat → Nat) → (Nat → Nat) → Int → Bool →
      Option ((Nat → Nat) × (Nat → Nat) × Int × Bool)
  | [], m, v, stage, wide => some (m, v, stage, wide)
  | ch :: rest, m, v, stage, wide =>
    if ch.enabled = false then configLoop dslogic rest m v stage wide
    else
      let wide' :=
        if dslogic then
          decide ((ch.index > 7 ∧ ch.typ = ChannelType.logic)
            ∨ (ch.index > 0 ∧ ch.typ = ChannelType.analog))
        else if ch.index > 7 then true else wide
      match ch.trigger with
      | none => configLoop dslogic rest m v stage wide'
      | some tc =>
        match chanTrigLoop (1 <<< ch.index) tc 0 m v with
        | none => none
        | some (m', v', st) => configLoop dslogic rest m' v' (st : Int) wide'

/-- The outputs of `fx2lafw_configure_channels` stored into the device
context. -/
structure ChannelConfig where
  trigger_mask : Nat → Nat
  trigger_value : Nat → Nat
  trigger_stage : Int
  sample_wide : Bool

/-- `fx2lafw_configure_channels`: reset every `trigger_mask` /
`trigger_value` word to 0, walk the channel list, and finally set
`trigger_stage` to 0 when some enabled channel carried a trigger string and
to `TRIGGER_FIRED` otherwise; `none` models the `SR_ERR` return. -/
def fx2lafw_configure_channels (dslogic : Bool) (sample_wide : Bool)
    (channels : List SrChannel) : Option ChannelConfig :=
  match configLoop dslogic channels (fun _ => 0) (fun _ => 0) (-1) sample_wide with
  | none => none
  | some (m, v, stage, wide) =>
    some { trigger_mask := m, trigger_value := v,
           trigger_stage := if stage = -1 then TRIGGER_FIRED else 0,
           sample_wide := wide }

/-- A one-channel list with the two-stage trigger string "01". -/
def chans9 : List SrChannel :=
  [{ index := 0, typ := ChannelType.logic, enabled := true,
     trigger := some ['0', '1'] }]

/-! ## Theorems -/

theorem trigWordLoop_eq (row : Nat → Char) (pred : Char → Bool) :
    ∀ n acc, trigWordLoop row pred acc n = acc * 2 ^ n + bitsVal row pred n := by
  intro n
  induction n with
  | zero => intro acc; simp [trigWordLoop, bitsVal]
  | succ m ih =>
    intro acc
    rw [trigWordLoop, ih, bitsVal, pow_succ]
    ring

theorem bitsVal_lt (row : Nat → Char) (pred : Char → Bool) :
    ∀ n, bitsVal row pred n < 2 ^ n := by
  intro n
  induction n with
  | zero => simp [bitsVal]
  | succ m ih =>
    rw [bitsVal, pow_succ]
    split <;> omega

theorem bitsVal_split (row : Nat → Char) (pred : Char → Bool) :
    ∀ n p, p + 1 ≤ n →
      ∃ hi, bitsVal row pred n = bitsVal row pred (p + 1) + 2 ^ (p + 1) * hi := by
  intro n
  induction n with
  | zero => intro p h; omega
  | succ m ih =>
    intro p h
    rcases Nat.eq_or_lt_of_le h with h1 | h1
    · exact ⟨0, by rw [h1]; ring⟩
    · obtain ⟨hi, hhi⟩ := ih p (by omega)
      refine ⟨hi + (if pred (row m) then 1 else 0) * 2 ^ (m - (p + 1)), ?_⟩
      rw [bitsVal, hhi]
      have hm : 2 ^ m = 2 ^ (p + 1) * 2 ^ (m - (p + 1)) := by
        rw [← pow_add]
        congr 1
        omega
      rw [hm]
      ring

theorem bitsVal_div_mod (row : Nat → Char) (pred : Char → Bool) {p n : Nat}
    (h : p < n) :
    bitsVal row pred n / 2 ^ p % 2 = if pred (row p) then 1 else 0 := by
  obtain ⟨hi, hhi⟩ := bitsVal_split row pred n p h
  rw [hhi, bitsVal]
  have hlt := bitsVal_lt row pred p
  have hrw : bitsVal row pred p + (if pred (row p) then 1 else 0) * 2 ^ p +
      2 ^ (p + 1) * hi
      = bitsVal row pred p + 2 ^ p * ((if pred (row p) then 1 else 0) + 2 * hi) := by
    rw [pow_succ]
    ring
  rw [hrw, Nat.add_mul_div_left _ _ (Nat.pos_pow_of_pos p (by norm_num)),
    Nat.div_eq_of_lt hlt, Nat.zero_add, Nat.add_mul_mod_self_left]
  split <;> rfl

theorem trigWord_testBit (row : Nat → Char) (pred : Char → Bool) {p : Nat}
    (hp : p < 16) :
    (trigWordLoop row pred 0 DSLOGIC_TRIGGER_PROBES).testBit p = pred (row p) := by
  rw [trigWordLoop_eq]
  have h16 : DSLOGIC_TRIGGER_PROBES = 16 := rfl
  rw [h16, Nat.zero_mul, Nat.zero_add, Nat.testBit_to_div_mod,
    bitsVal_div_mod row pred hp]
  by_cases h : pred (row p) <;> simp [h]

theorem trigWord_lt (row : Nat → Char) (pred : Char → Bool) :
    trigWordLoop row pred 0 DSLOGIC_TRIGGER_PROBES < 2 ^ 16 := by
  rw [trigWordLoop_eq]
  simpa using bitsVal_lt row pred 16

/-- C5: for every DSLogic trigger state, stage `s ≤ 16` and bit position
`p ≤ 15`: bit `p` of `ds_trigger_get_mask0 t s` is 1 iff `t.trigger0 s p` is
'X' or 'C'; bit `p` of `ds_trigger_get_value0 t s` is 1 iff it is '1' or 'R';
bit `p` of `ds_trigger_get_edge0 t s` is 1 iff it is 'R', 'F' or 'C'; the
same holds for `mask1`/`value1`/`edge1` over `trigger1`; and each word is a
16-bit value, so probe index 15 occupies the most significant bit. -/
theorem trigger_word_bits (t : DsTrigger) (s p : Nat) (hs : s ≤ 16) (hp : p ≤ 15) :
    ((ds_trigger_get_mask0 t s).testBit p = true ↔
      t.trigger0 s p = 'X' ∨ t.trigger0 s p = 'C')
    ∧ ((ds_trigger_get_value0 t s).testBit p = true ↔
      t.trigger0 s p = '1' ∨ t.trigger0 s p = 'R')
    ∧ ((ds_trigger_get_edge0 t s).testBit p = true ↔
      t.trigger0 s p = 'R' ∨ t.trigger0 s p = 'F' ∨ t.trigger0 s p = 'C')
    ∧ ((ds_trigger_get_mask1 t s).testBit p = true ↔
      t.trigger1 s p = 'X' ∨ t.trigger1 s p = 'C')
    ∧ ((ds_trigger_get_value1 t s).testBit p = true ↔
      t.trigger1 s p = '1' ∨ t.trigger1 s p = 'R')
    ∧ ((ds_trigger_get_edge1 t s).testBit p = true ↔
      t.trigger1 s p = 'R' ∨ t.trigger1 s p = 'F' ∨ t.trigger1 s p = 'C')
    ∧ ds_trigger_get_mask0 t s < 2 ^ 16 ∧ ds_trigger_get_value0 t s < 2 ^ 16
    ∧ ds_trigger_get_edge0 t s < 2 ^ 16 ∧ ds_trigger_get_mask1 t s < 2 ^ 16
    ∧ ds_trigger_get_value1 t s < 2 ^ 16 ∧ ds_trigger_get_edge1 t s < 2 ^ 16 := by
  have hp' : p < 16 := by omega
  refine ⟨?_, ?_, ?_, ?_, ?_, ?_, trigWord_lt _ _, trigWord_lt _ _, trigWord_lt _ _,
    trigWord_lt _ _, trigWord_lt _ _, trigWord_lt _ _⟩ <;>
    first
      | (rw [ds_trigger_get_mask0, trigWord_testBit _ _ hp']; simp [or_assoc])
      | (rw [ds_trigger_get_value0, trigWord_testBit _ _ hp']; simp [or_assoc])
      | (rw [ds_trigger_get_edge0, trigWord_testBit _ _ hp']; simp [or_assoc])
      | (rw [ds_trigger_get_mask1, trigWord_testBit _ _ hp']; simp [or_assoc])
      | (rw [ds_trigger_get_value1, trigWord_testBit _ _ hp']; simp [or_assoc])
      | (rw [ds_trigger_get_edge1, trigWord_testBit _ _ hp']; simp [or_assoc])

theorem trigger_word_bits_witness :
    (1 : Nat) ≤ 16 ∧ (1 : Nat) ≤ 15 ∧
    (((ds_trigger_get_mask0 trigW 1).testBit 1 = true ↔
      trigW.trigger0 1 1 = 'X' ∨ trigW.trigger0 1 1 = 'C')
    ∧ ((ds_trigger_get_value0 trigW 1).testBit 1 = true ↔
      trigW.trigger0 1 1 = '1' ∨ trigW.trigger0 1 1 = 'R')
    ∧ ((ds_trigger_get_edge0 trigW 1).testBit 1 = true ↔
      trigW.trigger0 1 1 = 'R' ∨ trigW.trigger0 1 1 = 'F' ∨ trigW.trigger0 1 1 = 'C')
    ∧ ((ds_trigger_get_mask1 trigW 1).testBit 1 = true ↔
      trigW.trigger1 1 1 = 'X' ∨ trigW.trigger1 1 1 = 'C')
    ∧ ((ds_trigger_get_value1 trigW 1).testBit 1 = true ↔
      trigW.trigger1 1 1 = '1' ∨ trigW.trigger1 1 1 = 'R')
    ∧ ((ds_trigger_get_edge1 trigW 1).testBit 1 = true ↔
      trigW.trigger1 1 1 = 'R' ∨ trigW.trigger1 1 1 = 'F' ∨ trigW.trigger1 1 1 = 'C')
    ∧ ds_trigger_get_mask0 trigW 1 < 2 ^ 16 ∧ ds_trigger_get_value0 trigW 1 < 2 ^ 16
    ∧ ds_trigger_get_edge0 trigW 1 < 2 ^ 16 ∧ ds_trigger_get_mask1 trigW 1 < 2 ^ 16
    ∧ ds_trigger_get_value1 trigW 1 < 2 ^ 16 ∧ ds_trigger_get_edge1 trigW 1 < 2 ^ 16) :=
  ⟨by decide, by decide, trigger_word_bits trigW 1 1 (by decide) (by decide)⟩

theorem setValueLoop_at (t0 : Nat → Nat → Char) (stage probes : Nat) (s : Nat → Char) :
    ∀ n, n ≤ probes → ∀ j, j < n →
      setValueLoop t0 stage probes s n stage (probes - 1 - j) = s (2 * j) := by
  intro n
  induction n with
  | zero => intro _ j hj; omega
  | succ m ih =>
    intro hn j hj
    rw [setValueLoop, upd2]
    rcases Nat.lt_succ_iff_lt_or_eq.mp hj with h | h
    · have hne : probes - 1 - j ≠ probes - m - 1 := by omega
      simp only [hne, and_false, if_false]
      exact ih (by omega) j h
    · subst h
      have he : probes - 1 - j = probes - j - 1 := by omega
      simp [he]

theorem setValueLoop_other (t0 : Nat → Nat → Char) (stage probes : Nat) (s : Nat → Char) :
    ∀ n st p, st ≠ stage → setValueLoop t0 stage probes s n st p = t0 st p := by
  intro n
  induction n with
  | zero => intro st p _; rfl
  | succ m ih =>
    intro st p hst
    rw [setValueLoop, upd2]
    simp only [hst, false_and, if_false]
    exact ih st p hst

/-- C10: `ds_trigger_stage_set_value t stage probes s0 s1` consumes its input
strings with stride two and stores them in reversed probe order: for every
`j < probes`, `trigger0[stage][probes-1-j]` becomes `s0 (2*j)` and
`trigger1[stage][probes-1-j]` becomes `s1 (2*j)`; all other stages and all
other trigger fields are unchanged.  The hypotheses are the C asserts. -/
theorem stage_set_value_spec (t : DsTrigger) (stage probes : Nat) (s0 s1 : Nat → Char)
    (hst : stage < DSLOGIC_TRIGGER_STAGES) (hpr : probes ≤ DSLOGIC_TRIGGER_PROBES) :
    (∀ j, j < probes →
      (ds_trigger_stage_set_value t stage probes s0 s1).trigger0 stage (probes - 1 - j)
        = s0 (2 * j)
      ∧ (ds_trigger_stage_set_value t stage probes s0 s1).trigger1 stage (probes - 1 - j)
        = s1 (2 * j))
    ∧ (∀ st p, st ≠ stage →
      (ds_trigger_stage_set_value t stage probes s0 s1).trigger0 st p = t.trigger0 st p
      ∧ (ds_trigger_stage_set_value t stage probes s0 s1).trigger1 st p = t.trigger1 st p)
    ∧ (ds_trigger_stage_set_value t stage probes s0 s1).trigger_en = t.trigger_en
    ∧ (ds_trigger_stage_set_value t stage probes s0 s1).trigger_mode = t.trigger_mode
    ∧ (ds_trigger_stage_set_value t stage probes s0 s1).trigger_pos = t.trigger_pos
    ∧ (ds_trigger_stage_set_value t stage probes s0 s1).trigger_stages = t.trigger_stages
    ∧ (ds_trigger_stage_set_value t stage probes s0 s1).trigger_logic = t.trigger_logic
    ∧ (ds_trigger_stage_set_value t stage probes s0 s1).trigger0_inv = t.trigger0_inv
    ∧ (ds_trigger_stage_set_value t stage probes s0 s1).trigger1_inv = t.trigger1_inv
    ∧ (ds_trigger_stage_set_value t stage probes s0 s1).trigger0_count = t.trigger0_count
    ∧ (ds_trigger_stage_set_value t stage probes s0 s1).trigger1_count
        = t.trigger1_count := by
  refine ⟨fun j hj => ⟨?_, ?_⟩, fun st p hstp => ⟨?_, ?_⟩,
    rfl, rfl, rfl, rfl, rfl, rfl, rfl, rfl, rfl⟩
  · exact setValueLoop_at t.trigger0 stage probes s0 probes le_rfl j hj
  · exact setValueLoop_at t.trigger1 stage probes s1 probes le_rfl j hj
  · exact setValueLoop_other t.trigger0 stage probes s0 probes st p hstp
  · exact setValueLoop_other t.trigger1 stage probes s1 probes st p hstp

theorem stage_set_value_spec_witness :
    (3 : Nat) < DSLOGIC_TRIGGER_STAGES ∧ (16 : Nat) ≤ DSLOGIC_TRIGGER_PROBES ∧
    ((∀ j, j < 16 →
      (ds_trigger_stage_set_value trigW 3 16 (fun i => Char.ofNat (65 + i))
        (fun i => Char.ofNat (97 + i))).trigger0 3 (16 - 1 - j)
        = Char.ofNat (65 + 2 * j)
      ∧ (ds_trigger_stage_set_value trigW 3 16 (fun i => Char.ofNat (65 + i))
        (fun i => Char.ofNat (97 + i))).trigger1 3 (16 - 1 - j)
        = Char.ofNat (97 + 2 * j))
    ∧ (∀ st p, st ≠ 3 →
      (ds_trigger_stage_set_value trigW 3 16 (fun i => Char.ofNat (65 + i))
        (fun i => Char.ofNat (97 + i))).trigger0 st p = trigW.trigger0 st p
      ∧ (ds_trigger_stage_set_value trigW 3 16 (fun i => Char.ofNat (65 + i))
        (fun i => Char.ofNat (97 + i))).trigger1 st p = trigW.trigger1 st p)
    ∧ (ds_trigger_stage_set_value trigW 3 16 (fun i => Char.ofNat (65 + i))
        (fun i => Char.ofNat (97 + i))).trigger_en = trigW.trigger_en
    ∧ (ds_trigger_stage_set_value trigW 3 16 (fun i => Char.ofNat (65 + i))
        (fun i => Char.ofNat (97 + i))).trigger_mode = trigW.trigger_mode
    ∧ (ds_trigger_stage_set_value trigW 3 16 (fun i => Char.ofNat (65 + i))
        (fun i => Char.ofNat (97 + i))).trigger_pos = trigW.trigger_pos
    ∧ (ds_trigger_stage_set_value trigW 3 16 (fun i => Char.ofNat (65 + i))
        (fun i => Char.ofNat (97 + i))).trigger_stages = trigW.trigger_stages
    ∧ (ds_trigger_stage_set_value trigW 3 16 (fun i => Char.ofNat (65 + i))
        (fun i => Char.ofNat (97 + i))).trigger_logic = trigW.trigger_logic
    ∧ (ds_trigger_stage_set_value trigW 3 16 (fun i => Char.ofNat (65 + i))
        (fun i => Char.ofNat (97 + i))).trigger0_inv = trigW.trigger0_inv
    ∧ (ds_trigger_stage_set_value trigW 3 16 (fun i => Char.ofNat (65 + i))
        (fun i => Char.ofNat (97 + i))).trigger1_inv = trigW.trigger1_inv
    ∧ (ds_trigger_stage_set_value trigW 3 16 (fun i => Char.ofNat (65 + i))
        (fun i => Char.ofNat (97 + i))).trigger0_count = trigW.trigger0_count
    ∧ (ds_trigger_stage_set_value trigW 3 16 (fun i => Char.ofNat (65 + i))
        (fun i => Char.ofNat (97 + i))).trigger1_count = trigW.trigger1_count) :=
  ⟨by decide, by decide,
    stage_set_value_spec trigW 3 16 (fun i => Char.ofNat (65 + i))
      (fun i => Char.ofNat (97 + i)) (by decide) (by decide)⟩

/-- C4: for the FX2 (non-DSLogic) path, `fx2lafw_command_start_acquisition`
refuses whenever `sample_wide` is set and `cur_samplerate > 12 MHz`;
otherwise it selects the 48 MHz clock with `delay = 48 MHz / samplerate - 1`
when `48 MHz mod samplerate == 0` and that delay is positive and at most
1536, else the 30 MHz clock with `delay = 30 MHz / samplerate - 1` when
`30 MHz mod samplerate == 0` and that delay is in `(0, 1536]`, and refuses
otherwise; in particular 1 MHz yields the 48 MHz clock with delay 47, 12 MHz
with `sample_wide` is accepted, and 24 MHz with `sample_wide` is rejected. -/
theorem start_acquisition_fx2 (rate : Nat) (wide : Bool) (h0 : 0 < rate) :
    ((wide = true ∧ rate > MAX_16BIT_SAMPLE_RATE) →
      fx2lafw_command_start_acquisition false rate wide = none)
    ∧ (¬(wide = true ∧ rate > MAX_16BIT_SAMPLE_RATE) →
      ((48000000 % rate = 0 → 0 < 48000000 / rate - 1 → 48000000 / rate - 1 ≤ 1536 →
        fx2lafw_command_start_acquisition false rate wide =
          some { flags := CMD_START_FLAGS_CLK_48MHZ |||
                   (if wide then CMD_START_FLAGS_SAMPLE_16BIT else 0),
                 sample_delay_h := (48000000 / rate - 1) >>> 8 &&& 255,
                 sample_delay_l := (48000000 / rate - 1) &&& 255 })
      ∧ (¬(48000000 % rate = 0 ∧ 0 < 48000000 / rate - 1 ∧ 48000000 / rate - 1 ≤ 1536) →
          30000000 % rate = 0 → 0 < 30000000 / rate - 1 → 30000000 / rate - 1 ≤ 1536 →
        fx2lafw_command_start_acquisition false rate wide =
          some { flags := CMD_START_FLAGS_CLK_30MHZ |||
                   (if wide then CMD_START_FLAGS_SAMPLE_16BIT else 0),
                 sample_delay_h := (30000000 / rate - 1) >>> 8 &&& 255,
                 sample_delay_l := (30000000 / rate - 1) &&& 255 })
      ∧ (¬(48000000 % rate = 0 ∧ 0 < 48000000 / rate - 1 ∧ 48000000 / rate - 1 ≤ 1536) →
          ¬(30000000 % rate = 0 ∧ 0 < 30000000 / rate - 1 ∧ 30000000 / rate - 1 ≤ 1536) →
        fx2lafw_command_start_acquisition false rate wide = none)))
    ∧ fx2lafw_command_start_acquisition false 1000000 false =
        some { flags := 64, sample_delay_h := 0, sample_delay_l := 47 }
    ∧ (fx2lafw_command_start_acquisition false 12000000 true).isSome = true
    ∧ fx2lafw_command_start_acquisition false 24000000 true = none := by
  have hle48 : 48000000 % rate = 0 → rate ≤ 48000000 := by
    intro h
    by_contra hgt
    push_neg at hgt
    rw [Nat.mod_eq_of_lt hgt] at h
    omega
  have hle30 : 30000000 % rate = 0 → rate ≤ 30000000 := by
    intro h
    by_contra hgt
    push_neg at hgt
    rw [Nat.mod_eq_of_lt hgt] at h
    omega
  refine ⟨?_, ?_, by decide, by decide, by decide⟩
  · intro h
    unfold fx2lafw_command_start_acquisition
    rw [if_neg (by simp), if_pos ⟨h.1, h.2⟩]
  · intro hw
    refine ⟨?_, ?_, ?_⟩
    · intro h48 hpos hle
      have hq : 1 ≤ 48000000 / rate := (Nat.one_le_div_iff h0).mpr (hle48 h48)
      have hd : startDelay48 rate = ((48000000 / rate - 1 : Nat) : Int) := by
        unfold startDelay48
        rw [if_pos h48, if_neg]
        · omega
        · unfold MAX_SAMPLE_DELAY
          omega
      have hd0 : ¬(startDelay48 rate = 0 ∧ 30000000 % rate = 0) := by
        rw [hd]
        intro hc
        have := hc.1
        omega
      have hDelay : startDelay rate = ((48000000 / rate - 1 : Nat) : Int) := by
        unfold startDelay
        rw [if_neg hd0, hd]
      have hFlags : startFlags rate = CMD_START_FLAGS_CLK_48MHZ := by
        unfold startFlags startFlags48
        rw [if_neg hd0, if_pos h48]
      unfold fx2lafw_command_start_acquisition
      rw [if_neg (by simp), if_neg hw, if_neg, hFlags, hDelay]
      · simp
      · rw [hDelay]
        unfold MAX_SAMPLE_DELAY
        omega
    · intro hn48 h30 hpos hle
      have hd48 : startDelay48 rate = 0 := by
        unfold startDelay48
        split_ifs with ha hb
        · rfl
        · have hq : 1 ≤ 48000000 / rate := (Nat.one_le_div_iff h0).mpr (hle48 ha)
          unfold MAX_SAMPLE_DELAY at hb
          have hno : ¬(0 < 48000000 / rate - 1 ∧ 48000000 / rate - 1 ≤ 1536) :=
            fun hc => hn48 ⟨ha, hc.1, hc.2⟩
          omega
        · rfl
      have hcond : startDelay48 rate = 0 ∧ 30000000 % rate = 0 := ⟨hd48, h30⟩
      have hq : 1 ≤ 30000000 / rate := (Nat.one_le_div_iff h0).mpr (hle30 h30)
      have hDelay : startDelay rate = ((30000000 / rate - 1 : Nat) : Int) := by
        unfold startDelay
        rw [if_pos hcond]
        omega
      have hFlags : startFlags rate = CMD_START_FLAGS_CLK_30MHZ := by
        unfold startFlags
        rw [if_pos hcond]
      unfold fx2lafw_command_start_acquisition
      rw [if_neg (by simp), if_neg hw, if_neg, hFlags, hDelay]
      · simp
      · rw [hDelay]
        unfold MAX_SAMPLE_DELAY
        omega
    · intro hn48 hn30
      have hd48 : startDelay48 rate = 0 := by
        unfold startDelay48
        split_ifs with ha hb
        · rfl
        · have hq : 1 ≤ 48000000 / rate := (Nat.one_le_div_iff h0).mpr (hle48 ha)
          unfold MAX_SAMPLE_DELAY at hb
          have hno : ¬(0 < 48000000 / rate - 1 ∧ 48000000 / rate - 1 ≤ 1536) :=
            fun hc => hn48 ⟨ha, hc.1, hc.2⟩
          omega
        · rfl
      unfold fx2lafw_command_start_acquisition
      rw [if_neg (by simp), if_neg hw, if_pos]
      by_cases h30 : 30000000 % rate = 0
      · have hq : 1 ≤ 30000000 / rate := (Nat.one_le_div_iff h0).mpr (hle30 h30)
        have hDelay : startDelay rate = ((30000000 / rate - 1 : Nat) : Int) := by
          unfold startDelay
          rw [if_pos ⟨hd48, h30⟩]
          omega
        have hno : ¬(0 < 30000000 / rate - 1 ∧ 30000000 / rate - 1 ≤ 1536) :=
          fun hc => hn30 ⟨h30, hc.1, hc.2⟩
        rw [hDelay]
        unfold MAX_SAMPLE_DELAY
        omega
      · have hDelay : startDelay rate = 0 := by
          unfold startDelay
          rw [if_neg (fun hc => h30 hc.2), hd48]
        rw [hDelay]
        left
        rfl

theorem start_acquisition_fx2_witness :
    0 < 25000 ∧
    (((true = true ∧ 25000 > MAX_16BIT_SAMPLE_RATE) →
      fx2lafw_command_start_acquisition false 25000 true = none)
    ∧ (¬(true = true ∧ 25000 > MAX_16BIT_SAMPLE_RATE) →
      ((48000000 % 25000 = 0 → 0 < 48000000 / 25000 - 1 → 48000000 / 25000 - 1 ≤ 1536 →
        fx2lafw_command_start_acquisition false 25000 true =
          some { flags := CMD_START_FLAGS_CLK_48MHZ |||
                   (if true then CMD_START_FLAGS_SAMPLE_16BIT else 0),
                 sample_delay_h := (48000000 / 25000 - 1) >>> 8 &&& 255,
                 sample_delay_l := (48000000 / 25000 - 1) &&& 255 })
      ∧ (¬(48000000 % 25000 = 0 ∧ 0 < 48000000 / 25000 - 1 ∧ 48000000 / 25000 - 1 ≤ 1536) →
          30000000 % 25000 = 0 → 0 < 30000000 / 25000 - 1 → 30000000 / 25000 - 1 ≤ 1536 →
        fx2lafw_command_start_acquisition false 25000 true =
          some { flags := CMD_START_FLAGS_CLK_30MHZ |||
                   (if true then CMD_START_FLAGS_SAMPLE_16BIT else 0),
                 sample_delay_h := (30000000 / 25000 - 1) >>> 8 &&& 255,
                 sample_delay_l := (30000000 / 25000 - 1) &&& 255 })
      ∧ (¬(48000000 % 25000 = 0 ∧ 0 < 48000000 / 25000 - 1 ∧ 48000000 / 25000 - 1 ≤ 1536) →
          ¬(30000000 % 25000 = 0 ∧ 0 < 30000000 / 25000 - 1 ∧ 30000000 / 25000 - 1 ≤ 1536) →
        fx2lafw_command_start_acquisition false 25000 true = none)))
    ∧ fx2lafw_command_start_acquisition false 1000000 false =
        some { flags := 64, sample_delay_h := 0, sample_delay_l := 47 }
    ∧ (fx2lafw_command_start_acquisition false 12000000 true).isSome = true
    ∧ fx2lafw_command_start_acquisition false 24000000 true = none) :=
  ⟨by decide, start_acquisition_fx2 25000 true (by decide)⟩

/-- C7 counterexample: for a non-DSLogic device at 1 MHz with 8-bit samples,
`fx2lafw_get_timeout` does not return 409 ms.  All arithmetic is integer:
`total_size / 1000 = 327680 / 1000 = 327` and `327 + 327 / 4 = 408`. -/
theorem get_timeout_1mhz_ne_409 : ¬ fx2lafw_get_timeout devc0 = 409 := by decide

/-- C7 amended: for a non-DSLogic device at 1 MHz with 8-bit samples,
`fx2lafw_get_buffer_size` returns `(10·1000 + 511) & ~511 = 10240` bytes,
`fx2lafw_get_number_of_transfers` returns `min(32, 500·1000/10240) = 32`, and
`fx2lafw_get_timeout` returns `327680/1000 + (327680/1000)/4 = 408` ms
(truncating division, not the 409 of exact 1.25 scaling). -/
theorem sizing_at_1mhz :
    fx2lafw_get_buffer_size devc0 = 10240
    ∧ fx2lafw_get_number_of_transfers devc0 = 32
    ∧ fx2lafw_get_timeout devc0 = 408 := by decide

theorem clearSlot_count (l : List (Option Nat)) (tid : Nat) (h : some tid ∈ l) :
    (clearSlot l tid).count (some tid) + 1 = l.count (some tid) := by
  induction l with
  | nil => cases h
  | cons s rest ih =>
    by_cases hs : s = some tid
    · subst hs
      simp [clearSlot, List.count_cons]
    · rcases List.mem_cons.mp h with h1 | h1
      · exact absurd h1.symm hs
      · have hc := ih h1
        have hbe1 : (s == some tid) = false := by simpa using hs
        have hbe2 : (some tid == s) = false := by
          simpa using fun hx => hs hx.symm
        simp only [clearSlot, if_neg hs, List.count_cons, hbe1, hbe2, if_false]
        omega

theorem clearSlot_length (l : List (Option Nat)) (tid : Nat) :
    (clearSlot l tid).length = l.length := by
  induction l with
  | nil => rfl
  | cons s rest ih =>
    by_cases hs : s = some tid <;> simp [clearSlot, hs, ih]

theorem teardown_drain (tids : List Nat) : ∀ devc : DevContext,
    devc.submitted_transfers = (tids.length : Int) → 0 < tids.length →
    (teardown devc tids).2 = [Packet.df_end]
    ∧ (teardown devc tids).1.submitted_transfers = 0
    ∧ (teardown devc tids).1.usb_source_active = false
    ∧ (teardown devc tids).1.num_transfers = 0
    ∧ (teardown devc tids).1.transfers = [] := by
  induction tids with
  | nil =>
    intro devc _ h0
    simp at h0
  | cons x rest ih =>
    intro devc hsub h0
    by_cases hr : rest = []
    · subst hr
      have h1 : devc.submitted_transfers - 1 = 0 := by
        rw [hsub]
        simp
      simp [teardown, fx2lafw_free_transfer, finish_acquisition, h1]
    · have hlen : 0 < rest.length := List.length_pos.mpr hr
      have h1 : devc.submitted_transfers - 1 = (rest.length : Int) := by
        rw [hsub, List.length_cons]
        push_cast
        ring
      have hne : ¬(devc.submitted_transfers - 1 = 0) := by omega
      obtain ⟨ha, hb, hc, hd, he⟩ := ih
        { devc with
          transfers := clearSlot devc.transfers x
          submitted_transfers := devc.submitted_transfers - 1 } h1 hlen
      simp only [teardown, fx2lafw_free_transfer, hne, if_false]
      exact ⟨by simpa using ha, hb, hc, hd, he⟩

/-- C2: every call to `fx2lafw_free_transfer` decrements
`submitted_transfers` by exactly one and clears the transfer's slot;
exactly when the count reaches zero it emits a single END packet, removes
the USB event source, resets `num_transfers` to 0 and releases the transfer
array; consequently a teardown drain of `k` callbacks from
`submitted_transfers = k` ends at zero having emitted exactly one END. -/
theorem free_transfer_spec (devc : DevContext) (tid : Nat)
    (hmem : some tid ∈ devc.transfers) :
    (fx2lafw_free_transfer devc tid).1.submitted_transfers
        = devc.submitted_transfers - 1
    ∧ (clearSlot devc.transfers tid).count (some tid) + 1
        = devc.transfers.count (some tid)
    ∧ (clearSlot devc.transfers tid).length = devc.transfers.length
    ∧ (devc.submitted_transfers - 1 = 0 →
        (fx2lafw_free_transfer devc tid).2 = [Packet.df_end]
        ∧ (fx2lafw_free_transfer devc tid).1.usb_source_active = false
        ∧ (fx2lafw_free_transfer devc tid).1.num_transfers = 0
        ∧ (fx2lafw_free_transfer devc tid).1.transfers = [])
    ∧ (devc.submitted_transfers - 1 ≠ 0 →
        (fx2lafw_free_transfer devc tid).2 = []
        ∧ (fx2lafw_free_transfer devc tid).1.transfers = clearSlot devc.transfers tid
        ∧ (fx2lafw_free_transfer devc tid).1.usb_source_active = devc.usb_source_active
        ∧ (fx2lafw_free_transfer devc tid).1.num_transfers = devc.num_transfers)
    ∧ (∀ tids : List Nat, devc.submitted_transfers = (tids.length : Int) →
        0 < tids.length →
        (teardown devc tids).2 = [Packet.df_end]
        ∧ (teardown devc tids).1.submitted_transfers = 0
        ∧ (teardown devc tids).1.usb_source_active = false
        ∧ (teardown devc tids).1.num_transfers = 0) := by
  refine ⟨?_, clearSlot_count devc.transfers tid hmem, clearSlot_length devc.transfers tid,
    ?_, ?_, ?_⟩
  · by_cases h : devc.submitted_transfers - 1 = 0 <;>
      simp [fx2lafw_free_transfer, finish_acquisition, h]
  · intro h
    simp [fx2lafw_free_transfer, finish_acquisition, h]
  · intro h
    simp [fx2lafw_free_transfer, finish_acquisition, h]
  · intro tids h1 h2
    obtain ⟨ha, hb, hc, hd, _⟩ := teardown_drain tids devc h1 h2
    exact ⟨ha, hb, hc, hd⟩

theorem free_transfer_spec_witness :
    some 10 ∈ ({ devc0 with
        submitted_transfers := 3
        num_transfers := 3
        transfers := [some 10, some 11, some 12] } : DevContext).transfers ∧
    ((fx2lafw_free_transfer { devc0 with
        submitted_transfers := 3
        num_transfers := 3
        transfers := [some 10, some 11, some 12] } 10).1.submitted_transfers
        = ({ devc0 with
        submitted_transfers := 3
        num_transfers := 3
        transfers := [some 10, some 11, some 12] } : DevContext).submitted_transfers - 1
    ∧ (clearSlot [some 10, some 11, some 12] 10).count (some 10) + 1
        = [some 10, some 11, some 12].count (some 10)
    ∧ (clearSlot [some 10, some 11, some 12] 10).length
        = [some 10, some 11, some 12].length
    ∧ ((3 : Int) - 1 = 0 →
        (fx2lafw_free_transfer { devc0 with
          submitted_transfers := 3
          num_transfers := 3
          transfers := [some 10, some 11, some 12] } 10).2 = [Packet.df_end]
        ∧ (fx2lafw_free_transfer { devc0 with
          submitted_transfers := 3
          num_transfers := 3
          transfers := [some 10, some 11, some 12] } 10).1.usb_source_active = false
        ∧ (fx2lafw_free_transfer { devc0 with
          submitted_transfers := 3
          num_transfers := 3
          transfers := [some 10, some 11, some 12] } 10).1.num_transfers = 0
        ∧ (fx2lafw_free_transfer { devc0 with
          submitted_transfers := 3
          num_transfers := 3
          transfers := [some 10, some 11, some 12] } 10).1.transfers = [])
    ∧ ((3 : Int) - 1 ≠ 0 →
        (fx2lafw_free_transfer { devc0 with
          submitted_transfers := 3
          num_transfers := 3
          transfers := [some 10, some 11, some 12] } 10).2 = []
        ∧ (fx2lafw_free_transfer { devc0 with
          submitted_transfers := 3
          num_transfers := 3
          transfers := [some 10, some 11, some 12] } 10).1.transfers
            = clearSlot [some 10, some 11, some 12] 10
        ∧ (fx2lafw_free_transfer { devc0 with
          submitted_transfers := 3
          num_transfers := 3
          transfers := [some 10, some 11, some 12] } 10).1.usb_source_active
            = ({ devc0 with
          submitted_transfers := 3
          num_transfers := 3
          transfers := [some 10, some 11, some 12] } : DevContext).usb_source_active
        ∧ (fx2lafw_free_transfer { devc0 with
          submitted_transfers := 3
          num_transfers := 3
          transfers := [some 10, some 11, some 12] } 10).1.num_transfers
            = ({ devc0 with
          submitted_transfers := 3
          num_transfers := 3
          transfers := [some 10, some 11, some 12] } : DevContext).num_transfers)
    ∧ (∀ tids : List Nat, (3 : Int) = (tids.length : Int) →
        0 < tids.length →
        (teardown { devc0 with
          submitted_transfers := 3
          num_transfers := 3
          transfers := [some 10, some 11, some 12] } tids).2 = [Packet.df_end]
        ∧ (teardown { devc0 with
          submitted_transfers := 3
          num_transfers := 3
          transfers := [some 10, some 11, some 12] } tids).1.submitted_transfers = 0
        ∧ (teardown { devc0 with
          submitted_transfers := 3
          num_transfers := 3
          transfers := [some 10, some 11, some 12] } tids).1.usb_source_active = false
        ∧ (teardown { devc0 with
          submitted_transfers := 3
          num_transfers := 3
          transfers := [some 10, some 11, some 12] } tids).1.num_transfers = 0)) :=
  ⟨by decide, free_transfer_spec _ 10 (by decide)⟩

/-- C1 counterexample: a late callback (num_samples = -1) whose free drains
`submitted_transfers` to zero does emit a packet — the END packet from
`finish_acquisition` — so "returns without emitting any packet" fails for
the last late callback. -/
theorem late_last_callback_emits_end :
    devcLate.num_samples = -1
    ∧ (fx2lafw_receive_transfer true devcLate tLate).packets = [Packet.df_end]
    ∧ ¬(fx2lafw_receive_transfer true devcLate tLate).packets = [] := by
  refine ⟨by decide, by decide, by decide⟩

/-- C1 amended: once `num_samples = -1` it stays -1; every transfer callback
invoked afterwards (both `fx2lafw_receive_transfer` and
`dslogic_receive_trigger_pos`) frees its transfer, does not resubmit it, and
emits no packet — except that the callback whose free drains
`submitted_transfers` to zero emits the single END packet of
`finish_acquisition`. -/
theorem abort_sticky_late_callbacks (submitOk : Bool) (devc : DevContext)
    (t : Transfer) (newIds : Nat → Nat) (h : devc.num_samples = -1) :
    ((fx2lafw_receive_transfer submitOk devc t).devc.num_samples = -1
    ∧ (fx2lafw_receive_transfer submitOk devc t).freed = true
    ∧ (fx2lafw_receive_transfer submitOk devc t).resubmitted = false
    ∧ (fx2lafw_receive_transfer submitOk devc t).packets
        = (if devc.submitted_transfers - 1 = 0 then [Packet.df_end] else []))
    ∧ ((dslogic_receive_trigger_pos devc t newIds).devc.num_samples = -1
    ∧ (dslogic_receive_trigger_pos devc t newIds).freed = true
    ∧ (dslogic_receive_trigger_pos devc t newIds).resubmitted = false
    ∧ (dslogic_receive_trigger_pos devc t newIds).packets
        = (if devc.submitted_transfers - 1 = 0 then [Packet.df_end] else [])) := by
  by_cases hz : devc.submitted_transfers - 1 = 0 <;>
    simp [fx2lafw_receive_transfer, dslogic_receive_trigger_pos,
      fx2lafw_free_transfer, finish_acquisition, h, hz]

theorem abort_sticky_late_callbacks_witness :
    devcLate.num_samples = -1
    ∧ (((fx2lafw_receive_transfer true devcLate tLate).devc.num_samples = -1
    ∧ (fx2lafw_receive_transfer true devcLate tLate).freed = true
    ∧ (fx2lafw_receive_transfer true devcLate tLate).resubmitted = false
    ∧ (fx2lafw_receive_transfer true devcLate tLate).packets
        = (if devcLate.submitted_transfers - 1 = 0 then [Packet.df_end] else []))
    ∧ ((dslogic_receive_trigger_pos devcLate tLate (fun i => i)).devc.num_samples = -1
    ∧ (dslogic_receive_trigger_pos devcLate tLate (fun i => i)).freed = true
    ∧ (dslogic_receive_trigger_pos devcLate tLate (fun i => i)).resubmitted = false
    ∧ (dslogic_receive_trigger_pos devcLate tLate (fun i => i)).packets
        = (if devcLate.submitted_transfers - 1 = 0 then [Packet.df_end] else []))) :=
  ⟨by decide, abort_sticky_late_callbacks true devcLate tLate (fun i => i) (by decide)⟩

theorem free_transfer_preserves (d : DevContext) (tid : Nat) :
    (fx2lafw_free_transfer d tid).1.empty_transfer_count = d.empty_transfer_count
    ∧ (fx2lafw_free_transfer d tid).1.num_samples = d.num_samples := by
  simp only [fx2lafw_free_transfer, finish_acquisition]
  split <;> exact ⟨rfl, rfl⟩

theorem resubmit_preserves (ok : Bool) (d : DevContext) (tid : Nat) :
    (resubmit_transfer ok d tid).devc.empty_transfer_count = d.empty_transfer_count
    ∧ (resubmit_transfer ok d tid).devc.num_samples = d.num_samples
    ∧ (resubmit_transfer ok d tid).resubmitted = ok := by
  simp only [resubmit_transfer]
  split
  · next h => exact ⟨rfl, rfl, h.symm⟩
  · next h =>
    exact ⟨(free_transfer_preserves d tid).1, (free_transfer_preserves d tid).2,
      (Bool.not_eq_true ok ▸ h : ok = false).symm⟩

theorem firedEmit_preserves (d : DevContext) (t : Transfer) (off w : Nat) :
    (firedEmit d t off w).1.empty_transfer_count = d.empty_transfer_count
    ∧ (firedEmit d t off w).1.num_samples = d.num_samples
    ∧ (firedEmit d t off w).1.limit_samples = d.limit_samples := by
  unfold firedEmit
  split_ifs <;> exact ⟨rfl, rfl, rfl⟩

theorem scanAndMark_preserves (d : DevContext) (t : Transfer) (w n : Nat) :
    (scanAndMark d t w n).1.empty_transfer_count = d.empty_transfer_count
    ∧ (scanAndMark d t w n).1.num_samples = d.num_samples
    ∧ (scanAndMark d t w n).1.limit_samples = d.limit_samples := by
  unfold scanAndMark
  split
  · rcases hf : (runScan d t.buffer n).fired with - | ⟨off, fs⟩ <;> simp [hf]
  · exact ⟨rfl, rfl, rfl⟩

theorem processData_empty_count (ok : Bool) (d : DevContext) (t : Transfer) :
    (processData ok d t).devc.empty_transfer_count = d.empty_transfer_count := by
  simp only [processData]
  split_ifs <;>
    simp [free_transfer_preserves, firedEmit_preserves, scanAndMark_preserves,
      resubmit_preserves, fx2lafw_abort_acquisition]

/-- C6: in `fx2lafw_receive_transfer`, when `num_samples != -1` and the
status is not NO_DEVICE: if `actual_length == 0` or the status is an error
status, `empty_transfer_count` is incremented and, if it then exceeds
`MAX_EMPTY_TRANSFERS = 64`, the acquisition is aborted and the transfer
freed, otherwise the transfer is resubmitted; a completed or timed-out
transfer with nonzero `actual_length` resets `empty_transfer_count` to 0. -/
theorem empty_transfer_policy (submitOk : Bool) (devc : DevContext) (t : Transfer)
    (hns : ¬devc.num_samples = -1) (hnd : ¬t.status = TransferStatus.noDevice) :
    MAX_EMPTY_TRANSFERS = 64
    ∧ ((t.actual_length = 0 ∨
        ¬(t.status = TransferStatus.completed ∨ t.status = TransferStatus.timedOut)) →
      (fx2lafw_receive_transfer submitOk devc t).devc.empty_transfer_count
          = devc.empty_transfer_count + 1
      ∧ (devc.empty_transfer_count + 1 > MAX_EMPTY_TRANSFERS →
          (fx2lafw_receive_transfer submitOk devc t).devc.num_samples = -1
          ∧ (fx2lafw_receive_transfer submitOk devc t).freed = true
          ∧ (fx2lafw_receive_transfer submitOk devc t).resubmitted = false)
      ∧ (¬devc.empty_transfer_count + 1 > MAX_EMPTY_TRANSFERS →
          (fx2lafw_receive_transfer submitOk devc t).resubmitted = submitOk
          ∧ (fx2lafw_receive_transfer submitOk devc t).devc.num_samples
              = devc.num_samples))
    ∧ ((t.status = TransferStatus.completed ∨ t.status = TransferStatus.timedOut) →
        ¬t.actual_length = 0 →
      (fx2lafw_receive_transfer submitOk devc t).devc.empty_transfer_count = 0) := by
  refine ⟨rfl, ?_, ?_⟩
  · intro he
    have hcond : t.actual_length = 0 ∨
        (¬t.status = TransferStatus.completed ∧ ¬t.status = TransferStatus.timedOut) :=
      he.imp id not_or.mp
    refine ⟨?_, ?_, ?_⟩
    · by_cases hcap : devc.empty_transfer_count + 1 > MAX_EMPTY_TRANSFERS <;>
        simp [fx2lafw_receive_transfer, hns, hnd, hcond, hcap,
          free_transfer_preserves, resubmit_preserves, fx2lafw_abort_acquisition]
    · intro hcap
      simp [fx2lafw_receive_transfer, hns, hnd, hcond, hcap,
        free_transfer_preserves, fx2lafw_abort_acquisition]
    · intro hcap
      simp [fx2lafw_receive_transfer, hns, hnd, hcond, hcap,
        resubmit_preserves]
  · intro hst hlen
    have hcond : ¬(t.actual_length = 0 ∨
        (decide ¬(t.status = TransferStatus.completed
          ∨ t.status = TransferStatus.timedOut)) = true) := by
      simp [hlen, hst]
    simp only [fx2lafw_receive_transfer, if_neg hns, if_neg hnd, if_neg hcond,
      processData_empty_count]

theorem empty_transfer_policy_witness :
    ¬devc0.num_samples = -1 ∧ ¬tErr.status = TransferStatus.noDevice ∧
    (MAX_EMPTY_TRANSFERS = 64
    ∧ ((tErr.actual_length = 0 ∨
        ¬(tErr.status = TransferStatus.completed
          ∨ tErr.status = TransferStatus.timedOut)) →
      (fx2lafw_receive_transfer true devc0 tErr).devc.empty_transfer_count
          = devc0.empty_transfer_count + 1
      ∧ (devc0.empty_transfer_count + 1 > MAX_EMPTY_TRANSFERS →
          (fx2lafw_receive_transfer true devc0 tErr).devc.num_samples = -1
          ∧ (fx2lafw_receive_transfer true devc0 tErr).freed = true
          ∧ (fx2lafw_receive_transfer true devc0 tErr).resubmitted = false)
      ∧ (¬devc0.empty_transfer_count + 1 > MAX_EMPTY_TRANSFERS →
          (fx2lafw_receive_transfer true devc0 tErr).resubmitted = true
          ∧ (fx2lafw_receive_transfer true devc0 tErr).devc.num_samples
              = devc0.num_samples))
    ∧ ((tErr.status = TransferStatus.completed
          ∨ tErr.status = TransferStatus.timedOut) →
        ¬tErr.actual_length = 0 →
      (fx2lafw_receive_transfer true devc0 tErr).devc.empty_transfer_count = 0)) :=
  ⟨by decide, by decide, empty_transfer_policy true devc0 tErr (by decide) (by decide)⟩

/-- C3 counterexample: over the buffer [0x10, 0x05, 0x20, 0x55] the
two-stage trigger (0x10 then 0x20 in consecutive samples) never fires — the
failed match at index 1 resets the stage and rescans from index 1, where
0x10 no longer matches stage 0 — so the callback emits no packet at all,
contrary to the claimed TRIGGER/LOGIC/LOGIC sequence. -/
theorem scan_scenario_no_fire :
    (runScan devcScan tScan1.buffer 4).fired = none
    ∧ (fx2lafw_receive_transfer true devcScan tScan1).packets = []
    ∧ (fx2lafw_receive_transfer true devcScan tScan1).devc.trigger_stage = 0 := by
  refine ⟨by decide, by decide, by decide⟩

/-- C3 amended: over the 8-bit buffer [0x05, 0x10, 0x20, 0x55] the scanner
fires at sample index 2 (`trigger_offset = 3`), emitting a TRIGGER packet
with no payload, then a LOGIC packet carrying the first
`trigger_stage * unitsize = 2` bytes of the 16-bit `trigger_buffer` array —
{0x10, 0x00}, not the matched samples {0x10, 0x20} — then a LOGIC packet
with the remaining byte {0x55}; and on a failed match with
`trigger_stage > 0` the scan restarts at index `i - trigger_stage` clamped
to -1 (so the next examined index is `i + 1 - trigger_stage` clamped to 0)
with `trigger_stage` reset to 0. -/
theorem scan_scenario_amended (mask value buf : Nat → Nat) (wide : Bool)
    (data : List Nat) (i stage : Nat)
    (hm : ¬(sampleAt wide data i &&& mask stage = value stage)) (hs : 0 < stage) :
    ((runScan devcScan tScan2.buffer 4).fired = some (3, 2)
    ∧ (fx2lafw_receive_transfer true devcScan tScan2).packets
        = [Packet.df_trigger none, Packet.df_logic 1 [16, 0], Packet.df_logic 1 [85]]
    ∧ (fx2lafw_receive_transfer true devcScan tScan2).devc.trigger_stage = TRIGGER_FIRED
    ∧ (fx2lafw_receive_transfer true devcScan tScan2).resubmitted = true)
    ∧ (scanStep mask value wide data ⟨i, stage, buf⟩ = (⟨i + 1 - stage, 0, buf⟩, none)
    ∧ ((i + 1 - stage : Nat) : Int) = max ((i : Int) - (stage : Int)) (-1) + 1) := by
  refine ⟨⟨by decide, by decide, by decide, by decide⟩, ?_, ?_⟩
  · simp [scanStep, hm, hs]
  · omega

theorem scan_scenario_amended_witness :
    ¬(sampleAt false [0] 0 &&& (fun _ => 255 : Nat → Nat) 1
        = (fun _ => 1 : Nat → Nat) 1) ∧ 0 < 1 ∧
    (((runScan devcScan tScan2.buffer 4).fired = some (3, 2)
    ∧ (fx2lafw_receive_transfer true devcScan tScan2).packets
        = [Packet.df_trigger none, Packet.df_logic 1 [16, 0], Packet.df_logic 1 [85]]
    ∧ (fx2lafw_receive_transfer true devcScan tScan2).devc.trigger_stage = TRIGGER_FIRED
    ∧ (fx2lafw_receive_transfer true devcScan tScan2).resubmitted = true)
    ∧ (scanStep (fun _ => 255) (fun _ => 1) false [0] ⟨0, 1, fun _ => 0⟩
        = (⟨0 + 1 - 1, 0, fun _ => 0⟩, none)
    ∧ ((0 + 1 - 1 : Nat) : Int) = max ((0 : Int) - (1 : Int)) (-1) + 1)) :=
  ⟨by decide, by decide,
    scan_scenario_amended (fun _ => 255) (fun _ => 1) (fun _ => 0) false [0] 0 1
      (by decide) (by decide)⟩

theorem findProfile_first (vid pid : Nat) (man prod : String) :
    ∀ (l : List Fx2lafwProfile) (p : Fx2lafwProfile),
      findProfile vid pid man prod l = some p →
      profileMatches vid pid man prod p = true
      ∧ ∃ l1 l2, l = l1 ++ p :: l2
          ∧ ∀ q ∈ l1, profileMatches vid pid man prod q = false := by
  intro l
  induction l with
  | nil => intro p h; simp [findProfile] at h
  | cons a rest ih =>
    intro p h
    by_cases ha : profileMatches vid pid man prod a = true
    · rw [findProfile, if_pos ha, Option.some_inj] at h
      subst h
      exact ⟨ha, [], rest, rfl, by simp⟩
    · rw [findProfile, if_neg ha] at h
      obtain ⟨hm, l1, l2, heq, hall⟩ := ih p h
      refine ⟨hm, a :: l1, l2, by simp [heq], ?_⟩
      intro q hq
      rcases List.mem_cons.mp hq with h1 | h1
      · subst h1
        exact Bool.not_eq_true _ ▸ ha
      · exact hall q h1

theorem findProfile_none (vid pid : Nat) (man prod : String) :
    ∀ l : List Fx2lafwProfile,
      findProfile vid pid man prod l = none ↔
        ∀ p ∈ l, profileMatches vid pid man prod p = false := by
  intro l
  induction l with
  | nil => simp [findProfile]
  | cons a rest ih =>
    by_cases ha : profileMatches vid pid man prod a = true
    · simp [findProfile, ha]
    · have ha' : profileMatches vid pid man prod a = false := Bool.not_eq_true _ ▸ ha
      simp [findProfile, ha', ih]

/-- C8: during scan an enumerated device (vid, pid, manufacturer and product
string descriptors) is matched against the first table profile whose vid and
pid equal the device's and whose optional expected manufacturer and product
strings equal the device's byte-exactly; when the expected manufacturer is
absent the product string is not checked either; a device matching no
profile is skipped (`findProfile = none`).  In particular the post-firmware
DSLogic (0925:3881, "DreamSourceLab"/"DSLogic") matches the DSLogic entry,
and the same ids with a different manufacturer fall through to the Saleae
Logic entry. -/
theorem scan_profile_match (vid pid : Nat) (manufacturer product : String) :
    (∀ p, findProfile vid pid manufacturer product supported_fx2 = some p →
      profileMatches vid pid manufacturer product p = true
      ∧ ∃ l1 l2, supported_fx2 = l1 ++ p :: l2
          ∧ ∀ q ∈ l1, profileMatches vid pid manufacturer product q = false)
    ∧ (findProfile vid pid manufacturer product supported_fx2 = none ↔
        ∀ p ∈ supported_fx2, profileMatches vid pid manufacturer product p = false)
    ∧ (∀ p : Fx2lafwProfile, profileMatches vid pid manufacturer product p = true ↔
        (vid = p.vid ∧ pid = p.pid ∧
          (p.usb_manufacturer = none ∨
            (some manufacturer = p.usb_manufacturer
              ∧ some product = p.usb_product))))
    ∧ (∀ p : Fx2lafwProfile, p.usb_manufacturer = none → ∀ product' : String,
        profileMatches vid pid manufacturer product p
          = profileMatches vid pid manufacturer product' p)
    ∧ findProfile 0x0925 0x3881 "DreamSourceLab" "DSLogic" supported_fx2
        = some (supported_fx2.get ⟨4, by decide⟩)
    ∧ findProfile 0x0925 0x3881 "OtherVendor" "DSLogic" supported_fx2
        = some (supported_fx2.get ⟨5, by decide⟩) := by
  refine ⟨findProfile_first vid pid manufacturer product supported_fx2,
    findProfile_none vid pid manufacturer product supported_fx2, ?_, ?_,
    by decide, by decide⟩
  · intro p
    rcases hm : p.usb_manufacturer with - | em <;>
      rcases hp : p.usb_product with - | ep <;>
        simp [profileMatches, hm, hp, and_assoc]
  · intro p hm product'
    simp [profileMatches, hm]

theorem scan_profile_match_witness :
    (∀ p, findProfile 0x0925 0x3881 "DreamSourceLab" "DSLogic" supported_fx2 = some p →
      profileMatches 0x0925 0x3881 "DreamSourceLab" "DSLogic" p = true
      ∧ ∃ l1 l2, supported_fx2 = l1 ++ p :: l2
          ∧ ∀ q ∈ l1, profileMatches 0x0925 0x3881 "DreamSourceLab" "DSLogic" q = false)
    ∧ (findProfile 0x0925 0x3881 "DreamSourceLab" "DSLogic" supported_fx2 = none ↔
        ∀ p ∈ supported_fx2,
          profileMatches 0x0925 0x3881 "DreamSourceLab" "DSLogic" p = false)
    ∧ (∀ p : Fx2lafwProfile,
        profileMatches 0x0925 0x3881 "DreamSourceLab" "DSLogic" p = true ↔
        (0x0925 = p.vid ∧ 0x3881 = p.pid ∧
          (p.usb_manufacturer = none ∨
            (some "DreamSourceLab" = p.usb_manufacturer
              ∧ some "DSLogic" = p.usb_product))))
    ∧ (∀ p : Fx2lafwProfile, p.usb_manufacturer = none → ∀ product' : String,
        profileMatches 0x0925 0x3881 "DreamSourceLab" "DSLogic" p
          = profileMatches 0x0925 0x3881 "DreamSourceLab" product' p)
    ∧ findProfile 0x0925 0x3881 "DreamSourceLab" "DSLogic" supported_fx2
        = some (supported_fx2.get ⟨4, by decide⟩)
    ∧ findProfile 0x0925 0x3881 "OtherVendor" "DSLogic" supported_fx2
        = some (supported_fx2.get ⟨5, by decide⟩) :=
  scan_profile_match 0x0925 0x3881 "DreamSourceLab" "DSLogic"

theorem chanTrigLoop_none_iff (bit : Nat) :
    ∀ (s : List Char) (st0 : Nat) (m v : Nat → Nat), st0 ≤ NUM_TRIGGER_STAGES →
      (chanTrigLoop bit s st0 m v = none ↔ NUM_TRIGGER_STAGES < st0 + s.length) := by
  intro s
  induction s with
  | nil =>
    intro st0 m v h
    simp only [chanTrigLoop, List.length_nil, Nat.add_zero]
    constructor
    · intro hc
      cases hc
    · intro hc
      omega
  | cons c rest ih =>
    intro st0 m v h
    by_cases hc : st0 + 1 > NUM_TRIGGER_STAGES
    · simp only [chanTrigLoop, if_pos hc, List.length_cons]
      constructor
      · intro _
        omega
      · intro _
        trivial
    · simp only [chanTrigLoop, if_neg hc, List.length_cons]
      rw [ih (st0 + 1) _ _ (by omega)]
      omega

theorem chanTrigLoop_some_stage (bit : Nat) :
    ∀ (s : List Char) (st0 : Nat) (m v : Nat → Nat) (m' v' : Nat → Nat) (st' : Nat),
      chanTrigLoop bit s st0 m v = some (m', v', st') → st' = st0 + s.length := by
  intro s
  induction s with
  | nil =>
    intro st0 m v m' v' st' h
    simp only [chanTrigLoop, Option.some_inj] at h
    cases h
    simp
  | cons c rest ih =>
    intro st0 m v m' v' st' h
    by_cases hc : st0 + 1 > NUM_TRIGGER_STAGES
    · simp only [chanTrigLoop, if_pos hc] at h
      cases h
    · simp only [chanTrigLoop, if_neg hc] at h
      have := ih (st0 + 1) _ _ _ _ _ h
      simp only [List.length_cons]
      omega

theorem configLoop_none_iff (dslogic : Bool) :
    ∀ (l : List SrChannel) (m v : Nat → Nat) (stage : Int) (wide : Bool),
      configLoop dslogic l m v stage wide = none ↔
        ∃ ch ∈ l, ch.enabled = true
          ∧ ∃ s, ch.trigger = some s ∧ NUM_TRIGGER_STAGES < s.length := by
  intro l
  induction l with
  | nil => intro m v stage wide; simp [configLoop]
  | cons ch rest ih =>
    intro m v stage wide
    by_cases hen : ch.enabled = false
    · simp only [configLoop, if_pos hen, ih]
      constructor
      · intro ⟨c, hc, hprop⟩
        exact ⟨c, List.mem_cons_of_mem ch hc, hprop⟩
      · rintro ⟨c, hc, hcen, hs⟩
        rcases List.mem_cons.mp hc with h1 | h1
        · subst h1
          rw [hen] at hcen
          cases hcen
        · exact ⟨c, h1, hcen, hs⟩
    · have hen' : ch.enabled = true := by
        cases hch : ch.enabled
        · exact absurd hch hen
        · rfl
      rcases htr : ch.trigger with - | tc
      · simp only [configLoop, if_neg hen, htr, ih]
        constructor
        · intro ⟨c, hc, hprop⟩
          exact ⟨c, List.mem_cons_of_mem ch hc, hprop⟩
        · rintro ⟨c, hc, hcen, s, hcs, hlen⟩
          rcases List.mem_cons.mp hc with h1 | h1
          · subst h1
            rw [htr] at hcs
            cases hcs
          · exact ⟨c, h1, hcen, s, hcs, hlen⟩
      · by_cases hlong : NUM_TRIGGER_STAGES < tc.length
        · have hnone : chanTrigLoop (1 <<< ch.index) tc 0 m v = none :=
            (chanTrigLoop_none_iff _ tc 0 m v (by simp [NUM_TRIGGER_STAGES])).mpr
              (by omega)
          simp only [configLoop, if_neg hen, htr, hnone]
          constructor
          · intro _
            exact ⟨ch, List.mem_cons_self ch rest, hen', tc, htr, hlong⟩
          · intro _
            trivial
        · have hne : ¬chanTrigLoop (1 <<< ch.index) tc 0 m v = none := by
            rw [chanTrigLoop_none_iff _ tc 0 m v (by simp [NUM_TRIGGER_STAGES])]
            omega
          rcases hsome : chanTrigLoop (1 <<< ch.index) tc 0 m v with - | trip
          · exact absurd hsome hne
          · obtain ⟨m2, v2, st2⟩ := trip
            simp only [configLoop, if_neg hen, htr, hsome, ih]
            constructor
            · intro ⟨c, hc, hprop⟩
              exact ⟨c, List.mem_cons_of_mem ch hc, hprop⟩
            · rintro ⟨c, hc, hcen, s, hcs, hlen⟩
              rcases List.mem_cons.mp hc with h1 | h1
              · subst h1
                rw [htr] at hcs
                rw [Option.some_inj] at hcs
                subst hcs
                omega
              · exact ⟨c, h1, hcen, s, hcs, hlen⟩

theorem configLoop_stage_iff (dslogic : Bool) :
    ∀ (l : List SrChannel) (m v : Nat → Nat) (stage : Int) (wide : Bool)
      (m' v' : Nat → Nat) (st' : Int) (wide' : Bool),
      configLoop dslogic l m v stage wide = some (m', v', st', wide') →
      (st' = -1 ↔ (stage = -1
        ∧ ∀ ch ∈ l, ¬(ch.enabled = true ∧ (ch.trigger).isSome = true))) := by
  intro l
  induction l with
  | nil =>
    intro m v stage wide m' v' st' wide' h
    simp only [configLoop, Option.some_inj] at h
    cases h
    simp
  | cons ch rest ih =>
    intro m v stage wide m' v' st' wide' h
    by_cases hen : ch.enabled = false
    · simp only [configLoop, hen, if_true] at h
      rw [ih _ _ _ _ _ _ _ _ h]
      constructor
      · intro ⟨h1, h2⟩
        refine ⟨h1, ?_⟩
        intro c hc
        rcases List.mem_cons.mp hc with he | he
        · subst he
          rintro ⟨hc1, -⟩
          rw [hen] at hc1
          cases hc1
        · exact h2 c he
      · intro ⟨h1, h2⟩
        exact ⟨h1, fun c hc => h2 c (List.mem_cons_of_mem ch hc)⟩
    · have hen' : ch.enabled = true := by
        cases hch : ch.enabled
        · exact absurd hch hen
        · rfl
      rcases htr : ch.trigger with - | tc
      · simp only [configLoop, htr, if_neg hen] at h
        rw [ih _ _ _ _ _ _ _ _ h]
        constructor
        · intro ⟨h1, h2⟩
          refine ⟨h1, ?_⟩
          intro c hc
          rcases List.mem_cons.mp hc with he | he
          · subst he
            rintro ⟨-, hc2⟩
            rw [htr] at hc2
            cases hc2
          · exact h2 c he
        · intro ⟨h1, h2⟩
          exact ⟨h1, fun c hc => h2 c (List.mem_cons_of_mem ch hc)⟩
      · simp only [configLoop, htr, if_neg hen] at h
        rcases hsome : chanTrigLoop (1 <<< ch.index) tc 0 m v with - | trip
        · simp only [hsome] at h
          exact Option.noConfusion h
        · obtain ⟨m2, v2, st2⟩ := trip
          simp only [hsome] at h
          rw [ih _ _ _ _ _ _ _ _ h]
          constructor
          · rintro ⟨h1, -⟩
            exact absurd h1 (by omega)
          · rintro ⟨-, h2⟩
            exact absurd ⟨hen', by rw [htr]; rfl⟩ (h2 ch (List.mem_cons_self ch rest))

theorem configLoop_masks_unchanged (dslogic : Bool) :
    ∀ (l : List SrChannel) (m v : Nat → Nat) (stage : Int) (wide : Bool)
      (m' v' : Nat → Nat) (st' : Int) (wide' : Bool),
      configLoop dslogic l m v stage wide = some (m', v', st', wide') →
      (∀ ch ∈ l, ¬(ch.enabled = true ∧ (ch.trigger).isSome = true)) →
      m' = m ∧ v' = v := by
  intro l
  induction l with
  | nil =>
    intro m v stage wide m' v' st' wide' h _
    simp only [configLoop, Option.some_inj] at h
    cases h
    exact ⟨rfl, rfl⟩
  | cons ch rest ih =>
    intro m v stage wide m' v' st' wide' h hno
    by_cases hen : ch.enabled = false
    · simp only [configLoop, hen, if_true] at h
      exact ih _ _ _ _ _ _ _ _ h fun c hc => hno c (List.mem_cons_of_mem ch hc)
    · have hen' : ch.enabled = true := by
        cases hch : ch.enabled
        · exact absurd hch hen
        · rfl
      rcases htr : ch.trigger with - | tc
      · simp only [configLoop, htr, if_neg hen] at h
        exact ih _ _ _ _ _ _ _ _ h fun c hc => hno c (List.mem_cons_of_mem ch hc)
      · exact absurd ⟨hen', by rw [htr]; rfl⟩ (hno ch (List.mem_cons_self ch rest))

/-- C9: `fx2lafw_configure_channels` returns SR_ERR (`none`) iff some
enabled channel has a trigger pattern string longer than
`NUM_TRIGGER_STAGES = 4` characters; on success `trigger_stage` is 0 when at
least one enabled channel has a trigger pattern and `TRIGGER_FIRED` (-1)
when none does, the mask/value words having started from all zeroes (so with
no enabled triggered channel they remain identically 0).  The concrete
conjunct checks the "01" pattern on channel 0: mask words 1,1,0 and value
words 0,1 with `trigger_stage = 0`. -/
theorem configure_channels_spec (dslogic wide0 : Bool) (channels : List SrChannel) :
    (fx2lafw_configure_channels dslogic wide0 channels = none ↔
      ∃ ch ∈ channels, ch.enabled = true
        ∧ ∃ s, ch.trigger = some s ∧ NUM_TRIGGER_STAGES < s.length)
    ∧ (∀ cfg, fx2lafw_configure_channels dslogic wide0 channels = some cfg →
        (cfg.trigger_stage =
          if ∃ ch ∈ channels, ch.enabled = true ∧ (ch.trigger).isSome = true then 0
          else TRIGGER_FIRED)
        ∧ ((∀ ch ∈ channels, ¬(ch.enabled = true ∧ (ch.trigger).isSome = true)) →
            cfg.trigger_mask = (fun _ => 0) ∧ cfg.trigger_value = (fun _ => 0)))
    ∧ (fx2lafw_configure_channels false false chans9).map
        (fun c => (c.trigger_mask 0, c.trigger_mask 1, c.trigger_mask 2,
          c.trigger_value 0, c.trigger_value 1, c.trigger_stage))
        = some (1, 1, 0, 0, 1, 0) := by
  refine ⟨?_, ?_, by decide⟩
  · unfold fx2lafw_configure_channels
    rcases hcl : configLoop dslogic channels (fun _ => 0) (fun _ => 0) (-1) wide0
      with - | quad
    · have hex := (configLoop_none_iff dslogic channels
        (fun _ => 0) (fun _ => 0) (-1) wide0).mp hcl
      simp [hex]
    · obtain ⟨m, v, st, w⟩ := quad
      have hne : ¬∃ ch ∈ channels, ch.enabled = true
          ∧ ∃ s, ch.trigger = some s ∧ NUM_TRIGGER_STAGES < s.length := by
        rw [← configLoop_none_iff dslogic channels (fun _ => 0) (fun _ => 0) (-1) wide0,
          hcl]
        simp
      simp [hne]
  · intro cfg hcfg
    unfold fx2lafw_configure_channels at hcfg
    rcases hcl : configLoop dslogic channels (fun _ => 0) (fun _ => 0) (-1) wide0
      with - | quad
    · rw [hcl] at hcfg
      exact Option.noConfusion hcfg
    · obtain ⟨m, v, st, w⟩ := quad
      rw [hcl, Option.some_inj] at hcfg
      subst hcfg
      have hst := configLoop_stage_iff dslogic channels
        (fun _ => 0) (fun _ => 0) (-1) wide0 m v st w hcl
      constructor
      · by_cases hex : ∃ ch ∈ channels, ch.enabled = true ∧ (ch.trigger).isSome = true
        · rw [if_pos hex]
          have hne : ¬st = -1 := by
            rw [hst]
            rintro ⟨-, hall⟩
            obtain ⟨c, hc, hcc⟩ := hex
            exact hall c hc hcc
          simp [hne]
        · rw [if_neg hex]
          push_neg at hex
          have hm1 : st = -1 :=
            hst.mpr ⟨rfl, fun c hc hcc => hex c hc hcc.1 hcc.2⟩
          simp [hm1, TRIGGER_FIRED]
      · intro hno
        have hmv := configLoop_masks_unchanged dslogic channels
          (fun _ => 0) (fun _ => 0) (-1) wide0 m v st w hcl hno
        exact ⟨hmv.1, hmv.2⟩

theorem configure_channels_spec_witness :
    (fx2lafw_configure_channels false false chans9 = none ↔
      ∃ ch ∈ chans9, ch.enabled = true
        ∧ ∃ s, ch.trigger = some s ∧ NUM_TRIGGER_STAGES < s.length)
    ∧ (∀ cfg, fx2lafw_configure_channels false false chans9 = some cfg →
        (cfg.trigger_stage =
          if ∃ ch ∈ chans9, ch.enabled = true ∧ (ch.trigger).isSome = true then 0
          else TRIGGER_FIRED)
        ∧ ((∀ ch ∈ chans9, ¬(ch.enabled = true ∧ (ch.trigger).isSome = true)) →
            cfg.trigger_mask = (fun _ => 0) ∧ cfg.trigger_value = (fun _ => 0)))
    ∧ (fx2lafw_configure_channels false false chans9).map
        (fun c => (c.trigger_mask 0, c.trigger_mask 1, c.trigger_mask 2,
          c.trigger_value 0, c.trigger_value 1, c.trigger_stage))
        = some (1, 1, 0, 0, 1, 0) :=
  configure_channels_spec false false chans9

end Fx2lafw
